import Mathlib

/-!
Verification development for the MAGNIFIER repository.

Shallow embedding of the viewport tracker (`src/app.cpp`), the capture
engine (`src/capture_engine.cpp`), the cursor compositing step
(`src/magnifier_window.cpp`) and the selected-text extraction
(`src/tracking_manager.cpp`).

Modelling conventions:
* C++ `float`/`double` values are modelled as `ℚ` (exact rational
  arithmetic standing in for real-number intent of the code).
* `LONG`/`int` values are `ℤ`; `ULONGLONG` tick counts are `ℕ`, with
  the wrap-around unsigned subtraction made explicit by `qwordSub`.
* `std::sqrt(d) OP c` comparisons with `c ≥ 0` are embedded as the
  equivalent comparison of squares (`sqrt` is monotone on nonnegatives),
  keeping every definition inside `ℚ`.
* External effects (Win32 / DXGI / UI Automation results) are passed in
  as explicit arguments: an `Option` result of a conversion or query, a
  `Bool` for a success flag, an inductive for a DXGI HRESULT class.
-/

/-- Mirror of `POINT` (LONG coordinates). -/
structure IPoint where
  x : ℤ
  y : ℤ
deriving DecidableEq, Repr

/-- Mirror of `RECT` (LONG coordinates). -/
structure IRect where
  left : ℤ
  top : ℤ
  right : ℤ
  bottom : ℤ
deriving DecidableEq, Repr

/-- Mirror of `SIZE`. -/
structure ISize where
  cx : ℤ
  cy : ℤ
deriving DecidableEq, Repr

/-- Mirror of `FloatPoint` from `app.h` (float coordinates). -/
structure QPoint where
  x : ℚ
  y : ℚ
deriving DecidableEq, Repr

/-- Mirror of `FloatRect` from `app.h`. -/
structure QRect where
  left : ℚ
  top : ℚ
  right : ℚ
  bottom : ℚ
deriving DecidableEq, Repr

/-- The fields of `MonitorInfo` (monitor_manager.h) that the tracker reads:
the screen-space bounding rectangle and the DPI scale factor. -/
structure MonitorInfo where
  bounds : IRect
  scale : ℚ
deriving DecidableEq, Repr

/-- Mirror of `ViewState` from `magnifier_window.h`. -/
structure ViewState where
  source_region : IRect
  zoom : ℚ
  cursor_visible : Bool
  invert_colors : Bool
  cursor_x : ℚ
  cursor_y : ℚ
deriving DecidableEq, Repr

/-- Mirror of `TrackingMode` (tracking_manager.h). -/
inductive TrackingMode where
  | Auto
  | Caret
  | Mouse
  | Focus
  | Manual
deriving DecidableEq, Repr

/-- The 64-bit unsigned subtraction `a - b` (ULONGLONG semantics) for
`a, b < 2^64`. -/
def qwordSub (a b : ℕ) : ℕ :=
  (2 ^ 64 + a - b) % 2 ^ 64

/-- Mirror of `std::clamp` on rationals: mirrors the comparison sequence of the
C++ implementation (`v < lo ? lo : hi < v ? hi : v`). -/
def clampQ (v lo hi : ℚ) : ℚ :=
  if v < lo then lo else if hi < v then hi else v

/-- Mirror of `std::clamp` on `LONG`. -/
def clampI (v lo hi : ℤ) : ℤ :=
  if v < lo then lo else if hi < v then hi else v

/-- Mirror of `PointInRect` (app.cpp line 54). -/
def pointInRect (r : IRect) (p : IPoint) : Prop :=
  r.left ≤ p.x ∧ p.x < r.right ∧ r.top ≤ p.y ∧ p.y < r.bottom

instance (r : IRect) (p : IPoint) : Decidable (pointInRect r p) := by
  unfold pointInRect; infer_instance

/-- Mirror of `App::ScreenToSource` (app.cpp lines 1394-1406), for the active
source monitor (`source_index_ ≥ 0` throughout the modelled runs). -/
def screenToSource (m : MonitorInfo) (pt : IPoint) : Option QPoint :=
  if pointInRect m.bounds pt then
    some ⟨((pt.x - m.bounds.left : ℤ) : ℚ) * m.scale,
          ((pt.y - m.bounds.top : ℤ) : ℚ) * m.scale⟩
  else
    none

/- Constants from app.cpp lines 31-45 and the field initialisers of
`App` (app.h lines 142-143); `dead_zone_pixels_` and
`smoothing_factor_` are never reassigned anywhere in the repository. -/

def kZoomStep : ℚ := 1 / 4

def kMinZoom : ℚ := 1

def kMaxZoom : ℚ := 12

def kCaretFollowTimeoutMs : ℕ := 600

def kMouseFollowTimeoutMs : ℕ := 160

def kFocusFollowTimeoutMs : ℕ := 900

def kPreviousCenterRecordThreshold : ℚ := 160

def kPreviousCenterRecordCooldownMs : ℕ := 500

def kClickLimitPixelsPerSecond : ℚ := 50

def kEndHoldThresholdMs : ℕ := 1000

def deadZonePixels : ℚ := 16

def smoothingFactor : ℚ := 9 / 20

/-- The `App` fields read and written by the tracker resolution
(`App::UpdateViewState`, `App::SnapCenterTo`,
`App::ApplyClickMovementLimit`, `App::OnMouseLeftClick`).  Field names
drop the trailing underscore of the C++ members. -/
structure AppState where
  view_state : ViewState
  mouse_position : IPoint
  caret_position : IPoint
  focus_rect : IRect
  zoom : ℚ
  tracking_mode : TrackingMode
  last_caret_tick : ℕ
  last_caret_target_tick : ℕ
  last_mouse_tick : ℕ
  last_focus_tick : ℕ
  invert_colors : Bool
  current_center_x : ℚ
  current_center_y : ℚ
  has_center : Bool
  previous_center_x : ℚ
  previous_center_y : ℚ
  has_previous_center : Bool
  previous_center_saved_tick : ℕ
  last_click_position : IPoint
  last_click_tick : ℕ
  has_last_click : Bool
  click_lock_active : Bool
  last_click_source : Option QPoint
  messenger_zone_active : Bool
  messenger_zone_source : QRect
  messenger_anchor : IPoint
  end_key_down : Bool
  end_alignment_active : Bool
  end_press_tick : ℕ
  end_ignore_inputs_until : ℕ
  has_putty_anchor : Bool
  putty_anchor_source : QPoint
  source_monitor : MonitorInfo
deriving DecidableEq, Repr

/-- Mirror of `use_caret` (app.cpp lines 658-677): the caret signal is adopted
when inputs are not suppressed, the signal is at most 600 ms old and the
caret position converts into source space; the adopted target is the
converted point shifted right by the fixed 4-pixel caret width. -/
def caretTarget (s : AppState) (now : ℕ) (suppressed : Bool) : Option QPoint :=
  if suppressed then none
  else if kCaretFollowTimeoutMs < qwordSub now s.last_caret_tick then none
  else
    match screenToSource s.source_monitor s.caret_position with
    | none => none
    | some c => some ⟨c.x + 4, c.y⟩

/-- Mirror of `use_mouse` (app.cpp lines 679-699), without the Auto-mode
`last_caret_target_tick_` bookkeeping (done in `selectTarget`). -/
def mouseTarget (s : AppState) (now : ℕ) (suppressed : Bool) : Option QPoint :=
  if suppressed then none
  else if kMouseFollowTimeoutMs < qwordSub now s.last_mouse_tick then none
  else if s.tracking_mode = TrackingMode.Auto ∧
          s.last_mouse_tick ≤ s.last_caret_target_tick then none
  else screenToSource s.source_monitor s.mouse_position

/-- Mirror of `use_focus` (app.cpp lines 701-715) with `rect_center_to_source`
(lines 635-640); the LONG divisions truncate toward zero (`Int.div`). -/
def focusTarget (s : AppState) (now : ℕ) (suppressed : Bool) : Option QPoint :=
  if suppressed then none
  else if kFocusFollowTimeoutMs < qwordSub now s.last_focus_tick then none
  else
    screenToSource s.source_monitor
      ⟨s.focus_rect.left + Int.tdiv (s.focus_rect.right - s.focus_rect.left) 2,
       s.focus_rect.top + Int.tdiv (s.focus_rect.bottom - s.focus_rect.top) 2⟩

/-- The mode dispatch of app.cpp lines 717-737 together with the
target/have_target/target_is_caret plumbing of the three lambdas.
Returns the adopted target (with its `target_is_caret` flag) and the new
value of `last_caret_target_tick_`: `use_caret` stamps it with `now` on
success (line 675) and a successful `use_mouse` zeroes it in Auto mode
(line 696). -/
def selectTarget (s : AppState) (now : ℕ) (suppressed : Bool) :
    Option (QPoint × Bool) × ℕ :=
  match s.tracking_mode with
  | TrackingMode.Auto =>
    match caretTarget s now suppressed with
    | some t => (some (t, true), now)
    | none =>
      match mouseTarget s now suppressed with
      | some t => (some (t, false), 0)
      | none =>
        match focusTarget s now suppressed with
        | some t => (some (t, false), s.last_caret_target_tick)
        | none => (none, s.last_caret_target_tick)
  | TrackingMode.Caret =>
    match caretTarget s now suppressed with
    | some t => (some (t, true), now)
    | none => (none, s.last_caret_target_tick)
  | TrackingMode.Mouse =>
    match mouseTarget s now suppressed with
    | some t => (some (t, false), s.last_caret_target_tick)
    | none => (none, s.last_caret_target_tick)
  | TrackingMode.Focus =>
    match focusTarget s now suppressed with
    | some t => (some (t, false), s.last_caret_target_tick)
    | none => (none, s.last_caret_target_tick)
  | TrackingMode.Manual => (none, s.last_caret_target_tick)

/-- Mirror of `App::ApplyClickMovementLimit` (app.cpp lines 1571-1605).  Returns
the possibly clamped `(x, y)` together with the updated state (the lazy
`last_click_source_` conversion may store the converted click point, or
clear `click_lock_active_` when the click is off the source monitor).
The `elapsed_ms < 0` guard of the C++ is kept even though `qwordSub`
can never produce a negative rational. -/
def applyClickMovementLimit (s : AppState) (x y : ℚ) (now : ℕ) :
    ℚ × ℚ × AppState :=
  if s.click_lock_active = false ∨ s.has_last_click = false then (x, y, s)
  else
    match (match s.last_click_source with
           | some c => some c
           | none => screenToSource s.source_monitor s.last_click_position) with
    | none => (x, y, { s with click_lock_active := false })
    | some c =>
      let s' := { s with last_click_source := some c }
      let elapsed0 : ℚ := (qwordSub now s.last_click_tick : ℕ)
      let elapsed : ℚ := if elapsed0 < 0 then 0 else elapsed0
      let limit : ℚ := kClickLimitPixelsPerSecond * (elapsed / 1000)
      if limit ≤ 0 then (c.x, c.y, s')
      else
        (clampQ x (c.x - limit) (c.x + limit),
         clampQ y (c.y - limit) (c.y + limit), s')

/-- The previous-center recording shared by app.cpp lines 790-797 and
1621-1628: when the jump distance reaches the record threshold
(compared on squares) and the cooldown since the last save has elapsed
(or no previous center exists), save the pre-jump center. -/
def recordPreviousCenter (s : AppState) (now : ℕ) (dist2 : ℚ) : AppState :=
  if kPreviousCenterRecordThreshold * kPreviousCenterRecordThreshold ≤ dist2 then
    if s.has_previous_center = false ∨
        kPreviousCenterRecordCooldownMs ≤ qwordSub now s.previous_center_saved_tick then
      { s with previous_center_x := s.current_center_x,
               previous_center_y := s.current_center_y,
               has_previous_center := true,
               previous_center_saved_tick := now }
    else s
  else s

/-- Mirror of `App::SnapCenterTo` (app.cpp lines 1607-1633).  The comparison
`distance >= kPreviousCenterRecordThreshold` is embedded as the
equivalent comparison of squares. -/
def snapCenterTo (s : AppState) (x y : ℚ) (now : ℕ)
    (ignore_click_limit : Bool) : AppState :=
  let r := if ignore_click_limit = false then applyClickMovementLimit s x y now
           else (x, y, s)
  let x := r.1
  let y := r.2.1
  let s := r.2.2
  if s.has_center = false then
    { s with current_center_x := x, current_center_y := y, has_center := true }
  else
    let dx := x - s.current_center_x
    let dy := y - s.current_center_y
    let s1 := recordPreviousCenter s now (dx * dx + dy * dy)
    { s1 with current_center_x := x, current_center_y := y, has_center := true }

/-- The smoothed approach of app.cpp lines 786-803: move toward the
target by `smoothing_factor_` of the remaining distance, only when the
distance exceeds the dead zone, recording the previous center on large
jumps and routing the step through the click-movement limit.  Both
`std::sqrt` comparisons are embedded as comparisons of squares. -/
def smoothTowards (s : AppState) (t : QPoint) (now : ℕ) : AppState :=
  let dx := t.x - s.current_center_x
  let dy := t.y - s.current_center_y
  let dist2 := dx * dx + dy * dy
  if deadZonePixels * deadZonePixels < dist2 then
    let s1 := recordPreviousCenter s now dist2
    let nx := s1.current_center_x + dx * smoothingFactor
    let ny := s1.current_center_y + dy * smoothingFactor
    let r := applyClickMovementLimit s1 nx ny now
    { r.2.2 with current_center_x := r.1, current_center_y := r.2.1 }
  else s

/-- app.cpp lines 626-629, 642-644 and 648-652: reset the per-tick
`ViewState` fields, drop the putty anchor once the END key is up and the
ignore window has elapsed, and record the cursor overlay position. -/
def beginViewState (s : AppState) (now : ℕ) : AppState :=
  let cursor := screenToSource s.source_monitor s.mouse_position
  { s with
    view_state := { s.view_state with
      cursor_visible := cursor.isSome,
      invert_colors := s.invert_colors,
      cursor_x := match cursor with | some c => c.x | none => 0,
      cursor_y := match cursor with | some c => c.y | none => 0 },
    has_putty_anchor :=
      if s.end_key_down = false ∧ s.end_ignore_inputs_until ≤ now then false
      else s.has_putty_anchor }

/-- app.cpp lines 748-758: while the END key is down (or the alignment
persists) and the foreground window matches the terminal pattern, pin
the bottom-left of that window converted to source space.  The foreground
query result `GetForegroundWindowRectIfMatches({L"putty"})` is an
explicit argument. -/
def capturePuttyAnchor (s : AppState) (puttyRect : Option IRect) : AppState :=
  if s.end_key_down = true ∨ s.end_alignment_active = true then
    match puttyRect with
    | some r =>
      match screenToSource s.source_monitor ⟨r.left, max r.top (r.bottom - 1)⟩ with
      | some c => { s with putty_anchor_source := c, has_putty_anchor := true }
      | none => s
    | none => s
  else s

/-- app.cpp lines 760-766: END-key hold debounce activating the
terminal alignment, and its release. -/
def updateEndAlignment (s : AppState) (now : ℕ) : AppState :=
  if s.end_key_down = true then
    if s.end_alignment_active = false ∧
        kEndHoldThresholdMs ≤ qwordSub now s.end_press_tick ∧
        s.has_putty_anchor = true then
      { s with end_alignment_active := true }
    else s
  else
    if s.end_alignment_active = true then { s with end_alignment_active := false }
    else s

/-- app.cpp lines 768-806: the center update.  Terminal alignment pins
the bottom-left of the view at the putty anchor; otherwise a first-ever
center snaps to the target, a caret target snaps bypassing the click
limit, and a non-caret target is approached through `smoothTowards`. -/
def applyCenterUpdate (s : AppState) (now : ℕ) (sel : Option (QPoint × Bool))
    (target : QPoint) (vw vh hw hh fw fh : ℚ) : AppState :=
  if s.end_alignment_active = true ∧ s.has_putty_anchor = true then
    let desired_left := clampQ s.putty_anchor_source.x 0 (fw - vw)
    let desired_bottom := clampQ s.putty_anchor_source.y vh fh
    { s with current_center_x := desired_left + hw,
             current_center_y := desired_bottom - hh,
             has_center := true,
             messenger_zone_active := false }
  else if s.has_center = false then
    snapCenterTo s target.x target.y now false
  else
    match sel with
    | none => s
    | some (t, true) => snapCenterTo s t.x t.y now true
    | some (t, false) => smoothTowards s t now

/-- app.cpp lines 808-819: messenger reply-strip clamp. -/
def applyMessengerClamp (s : AppState) (hw hh fw fh : ℚ) : AppState :=
  if s.messenger_zone_active = true then
    let min_allowed_x := max s.messenger_zone_source.left hw
    let max_allowed_x := min s.messenger_zone_source.right (fw - hw)
    let min_allowed_y := max s.messenger_zone_source.top hh
    let max_allowed_y := min s.messenger_zone_source.bottom (fh - hh)
    if min_allowed_x ≤ max_allowed_x ∧ min_allowed_y ≤ max_allowed_y then
      { s with
        current_center_x := clampQ s.current_center_x min_allowed_x max_allowed_x,
        current_center_y := clampQ s.current_center_y min_allowed_y max_allowed_y }
    else { s with messenger_zone_active := false }
  else s

/-- app.cpp lines 821-831: clamp the center so the view rectangle fits
in the frame, then emit the crop rectangle (`floor`/`ceil` of the float
edges) and the zoom into the `ViewState`. -/
def clampCenterAndRegion (s : AppState) (hw hh vw vh fw fh : ℚ) : AppState :=
  let cx := clampQ s.current_center_x hw (fw - hw)
  let cy := clampQ s.current_center_y hh (fh - hh)
  let left := cx - hw
  let top := cy - hh
  { s with
    current_center_x := cx,
    current_center_y := cy,
    view_state := { s.view_state with
      source_region := ⟨⌊left⌋, ⌊top⌋, ⌈left + vw⌉, ⌈top + vh⌉⟩,
      zoom := s.zoom } }

/-- app.cpp lines 741-744: `view_width = min(frame_width / zoom_,
frame_width)` (and the same for the height). -/
def viewExtent (frame : ℕ) (zoom : ℚ) : ℚ :=
  min ((frame : ℚ) / zoom) (frame : ℚ)

/-- Mirror of `App::UpdateViewState` (app.cpp lines 614-832) for the active
source monitor.  `now` is `GetTickCount64()`, `frameW`/`frameH` the
capture frame description, `puttyRect` the result of the foreground
terminal-window query of line 749. -/
def updateViewState (s : AppState) (now frameW frameH : ℕ)
    (puttyRect : Option IRect) : AppState :=
  if frameW = 0 ∨ frameH = 0 then s
  else
    let s1 := beginViewState s now
    let suppressed := decide (now < s1.end_ignore_inputs_until) || s1.end_alignment_active
    let sel := selectTarget s1 now suppressed
    let s2 := { s1 with last_caret_target_tick := sel.2 }
    let target : QPoint :=
      match sel.1 with
      | some t => t.1
      | none => ⟨(frameW : ℚ) / 2, (frameH : ℚ) / 2⟩
    let fw : ℚ := (frameW : ℕ)
    let fh : ℚ := (frameH : ℕ)
    let vw := viewExtent frameW s2.zoom
    let vh := viewExtent frameH s2.zoom
    let hw := vw / 2
    let hh := vh / 2
    let s3 := capturePuttyAnchor s2 puttyRect
    let s4 := updateEndAlignment s3 now
    let s5 := applyCenterUpdate s4 now sel.1 target vw vh hw hh fw fh
    let s6 := applyMessengerClamp s5 hw hh fw fh
    clampCenterAndRegion s6 hw hh vw vh fw fh

/-- Mirror of `App::OnMouseLeftClick` (app.cpp lines 1408-1460).  `isMessenger`
is the result of `IsMessengerProcess()`; the `0.1`/`0.25` double
multiplications followed by `std::lround` are embedded with `round`
(identical on the nonnegative values reachable here). -/
def onMouseLeftClick (s : AppState) (pt : IPoint) (now : ℕ)
    (isMessenger : Bool) : AppState :=
  let s := { s with
    mouse_position := pt,
    last_click_position := pt,
    last_click_tick := now,
    has_last_click := true,
    click_lock_active := true,
    messenger_zone_active := false,
    last_click_source := screenToSource s.source_monitor pt }
  if isMessenger = false then s
  else
    let m := s.source_monitor
    let monitor_width := m.bounds.right - m.bounds.left
    let monitor_height := m.bounds.bottom - m.bounds.top
    if 0 < monitor_width ∧ 0 < monitor_height then
      let strip_height := max (round ((monitor_height : ℚ) * (1 / 10))) 1
      let strip_top := max (m.bounds.bottom - strip_height) m.bounds.top
      if strip_top ≤ pt.y ∧ pt.y < m.bounds.bottom ∧
          m.bounds.left ≤ pt.x ∧ pt.x < m.bounds.right then
        let restricted_left :=
          clampI (m.bounds.left + round ((monitor_width : ℚ) * (1 / 4)))
            m.bounds.left (m.bounds.right - 1)
        let zone : IRect := ⟨restricted_left, strip_top, m.bounds.right, m.bounds.bottom⟩
        if zone.left < zone.right ∧ zone.top < zone.bottom then
          match screenToSource m ⟨zone.left, zone.top⟩,
                screenToSource m ⟨zone.right - 1, zone.bottom - 1⟩ with
          | some tl, some br =>
            { s with messenger_zone_source := ⟨tl.x, tl.y, br.x, br.y⟩,
                     messenger_zone_active := true,
                     messenger_anchor := pt }
          | _, _ => s
        else s
      else s
    else s

/-- The `App::ChangeZoom` observable state (app.cpp lines 915-931): the
zoom, the configuration copy of the zoom plus a save counter, the
tracked-center flag, the last layout overlay request and a tray-update
counter. -/
structure ZoomState where
  zoom : ℚ
  config_zoom : ℚ
  config_saves : ℕ
  has_center : Bool
  has_magnifier : Bool
  magnifier_active : Bool
  overlay : Option (ℤ × ℕ)
  tray_updates : ℕ
deriving DecidableEq, Repr

/-- Mirror of `App::ChangeZoom` (app.cpp lines 915-931).  `std::round` on the
nonnegative `zoom_ * 100` agrees with `round`. -/
def changeZoom (s : ZoomState) (delta : ℚ) : ZoomState :=
  let new_zoom := clampQ (s.zoom + delta) kMinZoom kMaxZoom
  if |new_zoom - s.zoom| < 1 / 1000 then s
  else
    let s := { s with zoom := new_zoom, config_zoom := new_zoom,
                      config_saves := s.config_saves + 1,
                      has_center := false }
    let s := if s.has_magnifier = true ∧ s.magnifier_active = true then
               { s with overlay := some (round (new_zoom * 100), 1000) }
             else s
    { s with tray_updates := s.tray_updates + 1 }

/-- The outcome class of `IDXGIOutputDuplication::AcquireNextFrame`
(capture_engine.cpp line 65): the wait timeout, the access-lost
invalidation, any other failing HRESULT, or success — in which case
`resource.As(&current_frame_)` (line 88) may still fail (`qiOk`). -/
inductive AcquireOutcome where
  | timeout
  | accessLost
  | otherFailure
  | success (qiOk : Bool)
deriving DecidableEq, Repr

/-- The `CaptureEngine` resource state: which COM objects are live,
whether a duplication frame is checked out, the reinitialize flag and
the remembered source monitor (an opaque handle). -/
structure CaptureState where
  hasDevice : Bool
  hasDuplication : Bool
  hasStaging : Bool
  frameAcquired : Bool
  hasCurrentFrame : Bool
  needsReinit : Bool
  sourceMonitor : Option ℤ
deriving DecidableEq, Repr

/-- Mirror of `CaptureEngine::AcquireFrame` (capture_engine.cpp lines 52-109).
Returns whether a frame was produced, plus the successor state. -/
def acquireFrame (s : CaptureState) (hr : AcquireOutcome) :
    Option Unit × CaptureState :=
  if s.hasDuplication = false then (none, s)
  else
    let s := if s.frameAcquired = true then
               { s with frameAcquired := false, hasCurrentFrame := false }
             else s
    match hr with
    | AcquireOutcome.timeout => (none, s)
    | AcquireOutcome.accessLost =>
      (none, { s with hasStaging := false, frameAcquired := false,
                      hasCurrentFrame := false, needsReinit := true,
                      hasDuplication := false })
    | AcquireOutcome.otherFailure =>
      (none, { s with hasDuplication := false, hasStaging := false,
                      frameAcquired := false, hasCurrentFrame := false,
                      needsReinit := true })
    | AcquireOutcome.success qiOk =>
      if qiOk = false then
        (none, { s with frameAcquired := false, hasCurrentFrame := false })
      else
        (some (), { s with frameAcquired := false, hasCurrentFrame := false })

/-- Mirror of `CaptureEngine::Reinitialize` (capture_engine.cpp lines 119-140).
`deviceOk` models `D3D11CreateDevice` succeeding when no device is
live; `duplicationOk` models `CreateDuplication(*source_monitor_)`
(device/adapter/output/duplication/staging creation) succeeding. -/
def reinitializeEngine (s : CaptureState) (deviceOk duplicationOk : Bool) :
    Bool × CaptureState :=
  match s.sourceMonitor with
  | none => (false, s)
  | some _ =>
    if s.hasDevice = false ∧ deviceOk = false then (false, s)
    else
      let s := { s with hasDevice := true, hasDuplication := false,
                        hasStaging := false, frameAcquired := false,
                        hasCurrentFrame := false }
      if duplicationOk = false then (false, { s with needsReinit := true })
      else
        (true, { s with hasDuplication := true, hasStaging := true,
                        needsReinit := false })

/-- The `MagnifierWindow` members read by `DrawCursor`
(magnifier_window.h lines 64-76): the synthesized glyph state and the
destination window size. -/
structure CursorState where
  cursor_visible : Bool
  has_cursor_srv : Bool
  has_pointer_vertex_buffer : Bool
  window_size : ISize
  cursor_size : ISize
  cursor_hotspot : IPoint
deriving DecidableEq, Repr

/-- Mirror of `MagnifierWindow::DrawCursor` (magnifier_window.cpp lines 646-684).
Returns the destination-pixel quad handed to `DrawTexturedQuad`, or
`none` when the draw is skipped. -/
def drawCursor (m : CursorState) (st : ViewState) : Option (ℚ × ℚ × ℚ × ℚ) :=
  if m.cursor_visible = false ∨ m.has_cursor_srv = false ∨
      m.has_pointer_vertex_buffer = false then none
  else
    let view_width : ℚ := ((st.source_region.right - st.source_region.left : ℤ) : ℚ)
    let view_height : ℚ := ((st.source_region.bottom - st.source_region.top : ℤ) : ℚ)
    if view_width ≤ 0 ∨ view_height ≤ 0 then none
    else if st.cursor_x < (st.source_region.left : ℚ) ∨
            (st.source_region.right : ℚ) < st.cursor_x ∨
            st.cursor_y < (st.source_region.top : ℚ) ∨
            (st.source_region.bottom : ℚ) < st.cursor_y then none
    else
      let cursor_left := st.cursor_x - (st.source_region.left : ℚ) -
        (m.cursor_hotspot.x : ℚ)
      let cursor_top := st.cursor_y - (st.source_region.top : ℚ) -
        (m.cursor_hotspot.y : ℚ)
      let scale_x := (m.window_size.cx : ℚ) / view_width
      let scale_y := (m.window_size.cy : ℚ) / view_height
      let left_px := cursor_left * scale_x
      let top_px := cursor_top * scale_y
      let right_px := left_px + (m.cursor_size.cx : ℚ) * scale_x
      let bottom_px := top_px + (m.cursor_size.cy : ℚ) * scale_y
      if right_px < 0 ∨ bottom_px < 0 ∨ (m.window_size.cx : ℚ) < left_px ∨
          (m.window_size.cy : ℚ) < top_px then none
      else some (left_px, top_px, right_px, bottom_px)

/-- Mirror of `kMaxSelectionLength` (tracking_manager.cpp line 376). -/
def kMaxSelectionLength : ℕ := 4096

/-- The external results `TrackingManager::GetSelectedText` consumes:
whether `automation_` is live, whether a focused element was obtained,
the selection ranges (for each range, the text it produced — `none`
when `GetElement`/`GetText` failed) when the text pattern and
`GetSelection` succeeded, and the value-pattern string.  Strings are
lists of characters. -/
structure SelInput where
  hasAutomation : Bool
  hasFocused : Bool
  selections : Option (List (Option (List Char)))
  value : Option (List Char)

/-- The selection loop of tracking_manager.cpp lines 385-401: append
the text of each range to `collected` behind a newline separator, stopping
with a truncated result as soon as 4096 characters are reached. -/
def collectRanges : List (Option (List Char)) → List Char → List Char
  | [], acc => acc
  | none :: rest, acc => collectRanges rest acc
  | some t :: rest, acc =>
    let acc' := if acc.isEmpty then acc ++ t else acc ++ '\n' :: t
    if kMaxSelectionLength ≤ acc'.length then acc'.take kMaxSelectionLength
    else collectRanges rest acc'

/-- Mirror of `TrackingManager::GetSelectedText` (tracking_manager.cpp
lines 366-422). -/
def getSelectedText (i : SelInput) : List Char :=
  if i.hasAutomation = false then []
  else if i.hasFocused = false then []
  else
    let collected :=
      match i.selections with
      | some ranges => collectRanges ranges []
      | none => []
    if collected.isEmpty = false then collected
    else
      match i.value with
      | some v =>
        if kMaxSelectionLength < v.length then v.take kMaxSelectionLength else v
      | none => []

/-- The `inputs_suppressed`/`selectTarget` plumbing of `updateViewState`
factored out for reuse in lemma statements. -/
def uvsSuppressed (s : AppState) (now : ℕ) : Bool :=
  decide (now < s.end_ignore_inputs_until) || s.end_alignment_active

/-- The target selection as performed inside `updateViewState`. -/
def uvsSel (s : AppState) (now : ℕ) : Option (QPoint × Bool) × ℕ :=
  selectTarget (beginViewState s now) now (uvsSuppressed (beginViewState s now) now)

/-- The target fallback of app.cpp line 654 (frame center). -/
def uvsTarget (sel : Option (QPoint × Bool)) (W H : ℕ) : QPoint :=
  match sel with
  | some t => t.1
  | none => ⟨(W : ℚ) / 2, (H : ℚ) / 2⟩

/-- The state after the per-tick resets and the
`last_caret_target_tick_` effect of target selection. -/
def uvsMid (s : AppState) (now : ℕ) : AppState :=
  { beginViewState s now with last_caret_target_tick := (uvsSel s now).2 }

/-- A concrete 1920x1080 source monitor at the desktop origin with unit
DPI scale, used by the witness scenarios. -/
def sampleMonitor : MonitorInfo := ⟨⟨0, 0, 1920, 1080⟩, 1⟩

/-- A concrete tracker state: caret mode, fresh caret at the monitor
origin, tracked center at the frame center, zoom 2. -/
def sampleState : AppState := {
  view_state := ⟨⟨0, 0, 0, 0⟩, 2, false, false, 0, 0⟩
  mouse_position := ⟨960, 540⟩
  caret_position := ⟨0, 0⟩
  focus_rect := ⟨0, 0, 0, 0⟩
  zoom := 2
  tracking_mode := TrackingMode.Caret
  last_caret_tick := 1000
  last_caret_target_tick := 0
  last_mouse_tick := 0
  last_focus_tick := 0
  invert_colors := false
  current_center_x := 960
  current_center_y := 540
  has_center := true
  previous_center_x := 0
  previous_center_y := 0
  has_previous_center := false
  previous_center_saved_tick := 0
  last_click_position := ⟨0, 0⟩
  last_click_tick := 0
  has_last_click := false
  click_lock_active := false
  last_click_source := none
  messenger_zone_active := false
  messenger_zone_source := ⟨0, 0, 0, 0⟩
  messenger_anchor := ⟨0, 0⟩
  end_key_down := false
  end_alignment_active := false
  end_press_tick := 0
  end_ignore_inputs_until := 0
  has_putty_anchor := false
  putty_anchor_source := ⟨0, 0⟩
  source_monitor := sampleMonitor }

/-- A caret-witness state: caret at the monitor center, previous center
far away, a live click lock — the snap ignores both. -/
def caretWitnessState : AppState :=
  { sampleState with
    caret_position := ⟨960, 540⟩,
    current_center_x := 100,
    current_center_y := 100,
    has_last_click := true,
    click_lock_active := true,
    last_click_tick := 990,
    last_click_source := some ⟨100, 100⟩ }

/-- The C3 counterexample state: Auto mode, caret updated 100 ms ago,
pointer updated 5 ms ago and strictly newer than the last caret-driven
center update. -/
def autoCounterState : AppState :=
  { sampleState with
    tracking_mode := TrackingMode.Auto,
    last_caret_tick := 900,
    last_mouse_tick := 995,
    last_caret_target_tick := 984,
    mouse_position := ⟨500, 500⟩ }

/-- The C3 witness state: stale caret, fresh pointer newer than the
last caret-driven update — the pointer target is adopted and the
caret-driven timestamp is reset. -/
def autoPointerState : AppState :=
  { sampleState with
    tracking_mode := TrackingMode.Auto,
    last_caret_tick := 0,
    last_mouse_tick := 995,
    last_caret_target_tick := 984,
    mouse_position := ⟨500, 500⟩ }

/-- The C7 witness state: every signal stale, tracked center present. -/
def holdState : AppState := { sampleState with last_caret_tick := 0 }

/-- The C6 witness state: Mouse mode, fresh pointer 5 source pixels
away from the tracked center (inside the 16-pixel dead zone). -/
def deadZoneState : AppState :=
  { sampleState with
    tracking_mode := TrackingMode.Mouse,
    last_caret_tick := 0,
    last_mouse_tick := 1000,
    mouse_position := ⟨965, 545⟩ }

/-- The C5 counterexample state: click-lock anchored at source point
(10, 10) and active, all positional signals stale, tracked center at
(960, 540). -/
def clickHoldState : AppState :=
  { sampleState with
    last_caret_tick := 0,
    has_last_click := true,
    click_lock_active := true,
    last_click_tick := 1000,
    last_click_position := ⟨10, 10⟩,
    last_click_source := some ⟨10, 10⟩ }

/-- The C5 witness state: Mouse mode with a fresh pointer target far
from the center, click-lock anchored at (600, 500) 16 ms ago. -/
def clickLockState : AppState :=
  { sampleState with
    tracking_mode := TrackingMode.Mouse,
    last_caret_tick := 0,
    last_mouse_tick := 1000,
    mouse_position := ⟨800, 600⟩,
    current_center_x := 480,
    current_center_y := 270,
    has_last_click := true,
    click_lock_active := true,
    last_click_tick := 1000,
    last_click_position := ⟨600, 500⟩,
    last_click_source := some ⟨600, 500⟩ }

/-- A live capture session: device, duplication and staging texture
present, no frame checked out, reinitialize flag clear. -/
def liveCapture : CaptureState :=
  ⟨true, true, true, false, false, false, some 0⟩

/-- The C8 counterexample cursor state: a 64x64 glyph with hotspot
(32, 0) on a 100x100 destination window. -/
def cursorCounterState : CursorState :=
  ⟨true, true, true, ⟨100, 100⟩, ⟨64, 64⟩, ⟨32, 0⟩⟩

/-- The C8 counterexample view state: crop [100,200]x[100,200] with the
pointer position at (99, 150), one pixel left of the crop. -/
def cursorCounterView : ViewState :=
  ⟨⟨100, 100, 200, 200⟩, 2, true, false, 99, 150⟩

/-- The C8 witness cursor/view states: hotspot (0,0), pointer at the
crop center. -/
def cursorWitnessState : CursorState :=
  ⟨true, true, true, ⟨100, 100⟩, ⟨64, 64⟩, ⟨0, 0⟩⟩

/-- View for the C8 witness: crop [100,200]x[100,200], cursor (150,150). -/
def cursorWitnessView : ViewState :=
  ⟨⟨100, 100, 200, 200⟩, 2, true, false, 150, 150⟩

/-- The selection-loop accumulation without the truncation stop: append
each text behind a newline separator (no separator onto an empty
accumulator). -/
def appendTexts (acc : List Char) : List (List Char) → List Char
  | [] => acc
  | t :: ts => appendTexts (if acc.isEmpty then acc ++ t else acc ++ '\n' :: t) ts

/-- Specification-side description of the selection concatenation: the
first text, then every further text preceded by one newline. -/
def joinWithNewlines : List (List Char) → List Char
  | [] => []
  | t :: ts => t ++ (ts.map (fun u => '\n' :: u)).flatten

/-- The C9 witness input: two successful selection ranges around one
failed one, no value pattern. -/
def selWitnessInput : SelInput :=
  ⟨true, true, some [some ['a', 'b'], none, some ['c']], none⟩

lemma clampQ_mem (v lo hi : ℚ) (h : lo ≤ hi) :
    lo ≤ clampQ v lo hi ∧ clampQ v lo hi ≤ hi := by
  unfold clampQ
  split_ifs with h1 h2 <;> constructor <;> linarith

lemma clampQ_eq_self (v lo hi : ℚ) (h1 : lo ≤ v) (h2 : v ≤ hi) :
    clampQ v lo hi = v := by
  unfold clampQ
  split_ifs <;> linarith

lemma qwordSub_of_le {a b : ℕ} (hba : b ≤ a) (h : a - b < 2 ^ 64) :
    qwordSub a b = a - b := by
  unfold qwordSub
  omega

lemma updateViewState_eq (s : AppState) (now W H : ℕ) (pr : Option IRect)
    (h : ¬(W = 0 ∨ H = 0)) :
    updateViewState s now W H pr =
      clampCenterAndRegion
        (applyMessengerClamp
          (applyCenterUpdate (updateEndAlignment (capturePuttyAnchor (uvsMid s now) pr) now)
            now (uvsSel s now).1 (uvsTarget (uvsSel s now).1 W H)
            (viewExtent W s.zoom) (viewExtent H s.zoom)
            (viewExtent W s.zoom / 2) (viewExtent H s.zoom / 2) (W : ℚ) (H : ℚ))
          (viewExtent W s.zoom / 2) (viewExtent H s.zoom / 2) (W : ℚ) (H : ℚ))
        (viewExtent W s.zoom / 2) (viewExtent H s.zoom / 2)
        (viewExtent W s.zoom) (viewExtent H s.zoom) (W : ℚ) (H : ℚ) := by
  unfold updateViewState uvsMid uvsSel uvsTarget uvsSuppressed
  rw [if_neg h]
  rfl

lemma clampCenterAndRegion_region_bounds (s : AppState) (vw vh : ℚ) (W H : ℕ)
    (h0w : 0 ≤ vw) (h1w : vw ≤ (W : ℚ)) (h0h : 0 ≤ vh) (h1h : vh ≤ (H : ℚ)) :
    0 ≤ (clampCenterAndRegion s (vw / 2) (vh / 2) vw vh (W : ℚ) (H : ℚ)).view_state.source_region.left ∧
    (clampCenterAndRegion s (vw / 2) (vh / 2) vw vh (W : ℚ) (H : ℚ)).view_state.source_region.left ≤
      (clampCenterAndRegion s (vw / 2) (vh / 2) vw vh (W : ℚ) (H : ℚ)).view_state.source_region.right ∧
    (clampCenterAndRegion s (vw / 2) (vh / 2) vw vh (W : ℚ) (H : ℚ)).view_state.source_region.right ≤ (W : ℤ) ∧
    0 ≤ (clampCenterAndRegion s (vw / 2) (vh / 2) vw vh (W : ℚ) (H : ℚ)).view_state.source_region.top ∧
    (clampCenterAndRegion s (vw / 2) (vh / 2) vw vh (W : ℚ) (H : ℚ)).view_state.source_region.top ≤
      (clampCenterAndRegion s (vw / 2) (vh / 2) vw vh (W : ℚ) (H : ℚ)).view_state.source_region.bottom ∧
    (clampCenterAndRegion s (vw / 2) (vh / 2) vw vh (W : ℚ) (H : ℚ)).view_state.source_region.bottom ≤ (H : ℤ) := by
  have hlw : vw / 2 ≤ (W : ℚ) - vw / 2 := by linarith
  have hlh : vh / 2 ≤ (H : ℚ) - vh / 2 := by linarith
  have hx := clampQ_mem s.current_center_x (vw / 2) ((W : ℚ) - vw / 2) hlw
  have hy := clampQ_mem s.current_center_y (vh / 2) ((H : ℚ) - vh / 2) hlh
  simp only [clampCenterAndRegion]
  refine ⟨?_, ?_, ?_, ?_, ?_, ?_⟩
  · exact Int.le_floor.mpr (by push_cast; linarith [hx.1])
  · have h1 : (clampQ s.current_center_x (vw / 2) ((W : ℚ) - vw / 2) - vw / 2 : ℚ) ≤
        clampQ s.current_center_x (vw / 2) ((W : ℚ) - vw / 2) - vw / 2 + vw := by linarith
    have := le_trans (Int.floor_le (clampQ s.current_center_x (vw / 2) ((W : ℚ) - vw / 2) - vw / 2))
      (le_trans h1 (Int.le_ceil _))
    exact_mod_cast this
  · exact Int.ceil_le.mpr (by push_cast; linarith [hx.2])
  · exact Int.le_floor.mpr (by push_cast; linarith [hy.1])
  · have h1 : (clampQ s.current_center_y (vh / 2) ((H : ℚ) - vh / 2) - vh / 2 : ℚ) ≤
        clampQ s.current_center_y (vh / 2) ((H : ℚ) - vh / 2) - vh / 2 + vh := by linarith
    have := le_trans (Int.floor_le (clampQ s.current_center_y (vh / 2) ((H : ℚ) - vh / 2) - vh / 2))
      (le_trans h1 (Int.le_ceil _))
    exact_mod_cast this
  · exact Int.ceil_le.mpr (by push_cast; linarith [hy.2])

lemma viewExtent_nonneg (frame : ℕ) (zoom : ℚ) (hz : kMinZoom ≤ zoom) :
    0 ≤ viewExtent frame zoom := by
  have hz0 : (0 : ℚ) < zoom := lt_of_lt_of_le one_pos hz
  exact le_min (div_nonneg (Nat.cast_nonneg frame) (le_of_lt hz0)) (Nat.cast_nonneg frame)

lemma viewExtent_le (frame : ℕ) (zoom : ℚ) : viewExtent frame zoom ≤ (frame : ℚ) :=
  min_le_right _ _

/-- C1: for every captured frame with positive width `W` and height
`H`, every zoom in `[1, 12]` and every current tracker state, the
`sourceRegion` produced by one resolution of `App::UpdateViewState` is
fully contained in the frame bounds: `0 ≤ left ≤ right ≤ W` and
`0 ≤ top ≤ bottom ≤ H`. -/
theorem updateViewState_source_region_within_frame
    (s : AppState) (now W H : ℕ) (pr : Option IRect)
    (hW : 0 < W) (hH : 0 < H)
    (hz1 : kMinZoom ≤ s.zoom) (hz2 : s.zoom ≤ kMaxZoom) :
    0 ≤ (updateViewState s now W H pr).view_state.source_region.left ∧
    (updateViewState s now W H pr).view_state.source_region.left ≤
      (updateViewState s now W H pr).view_state.source_region.right ∧
    (updateViewState s now W H pr).view_state.source_region.right ≤ (W : ℤ) ∧
    0 ≤ (updateViewState s now W H pr).view_state.source_region.top ∧
    (updateViewState s now W H pr).view_state.source_region.top ≤
      (updateViewState s now W H pr).view_state.source_region.bottom ∧
    (updateViewState s now W H pr).view_state.source_region.bottom ≤ (H : ℤ) := by
  have h : ¬(W = 0 ∨ H = 0) := by omega
  rw [updateViewState_eq s now W H pr h]
  exact clampCenterAndRegion_region_bounds _ _ _ W H
    (viewExtent_nonneg W s.zoom hz1) (viewExtent_le W s.zoom)
    (viewExtent_nonneg H s.zoom hz1) (viewExtent_le H s.zoom)

/-- Witness for C1 at a concrete input. -/
theorem updateViewState_source_region_within_frame_witness :
    0 < 1920 ∧ 0 < 1080 ∧ kMinZoom ≤ sampleState.zoom ∧ sampleState.zoom ≤ kMaxZoom ∧
    (0 ≤ (updateViewState sampleState 1000 1920 1080 none).view_state.source_region.left ∧
     (updateViewState sampleState 1000 1920 1080 none).view_state.source_region.left ≤
       (updateViewState sampleState 1000 1920 1080 none).view_state.source_region.right ∧
     (updateViewState sampleState 1000 1920 1080 none).view_state.source_region.right ≤ (1920 : ℤ) ∧
     0 ≤ (updateViewState sampleState 1000 1920 1080 none).view_state.source_region.top ∧
     (updateViewState sampleState 1000 1920 1080 none).view_state.source_region.top ≤
       (updateViewState sampleState 1000 1920 1080 none).view_state.source_region.bottom ∧
     (updateViewState sampleState 1000 1920 1080 none).view_state.source_region.bottom ≤ (1080 : ℤ)) :=
  ⟨by decide, by decide, by decide, by decide,
   updateViewState_source_region_within_frame sampleState 1000 1920 1080 none
     (by decide) (by decide) (by decide) (by decide)⟩

lemma uvsMid_end_key_down (s : AppState) (now : ℕ) :
    (uvsMid s now).end_key_down = s.end_key_down := rfl

lemma uvsMid_end_alignment_active (s : AppState) (now : ℕ) :
    (uvsMid s now).end_alignment_active = s.end_alignment_active := rfl

lemma uvsMid_has_center (s : AppState) (now : ℕ) :
    (uvsMid s now).has_center = s.has_center := rfl

lemma uvsMid_messenger_zone_active (s : AppState) (now : ℕ) :
    (uvsMid s now).messenger_zone_active = s.messenger_zone_active := rfl

lemma uvsMid_current_center_x (s : AppState) (now : ℕ) :
    (uvsMid s now).current_center_x = s.current_center_x := rfl

lemma uvsMid_current_center_y (s : AppState) (now : ℕ) :
    (uvsMid s now).current_center_y = s.current_center_y := rfl

lemma uvsMid_zoom (s : AppState) (now : ℕ) : (uvsMid s now).zoom = s.zoom := rfl

lemma uvsMid_last_click_tick (s : AppState) (now : ℕ) :
    (uvsMid s now).last_click_tick = s.last_click_tick := rfl

lemma uvsMid_end_ignore_inputs_until (s : AppState) (now : ℕ) :
    (uvsMid s now).end_ignore_inputs_until = s.end_ignore_inputs_until := rfl

lemma uvsSel_eq_selectTarget (s : AppState) (now : ℕ)
    (halign : s.end_alignment_active = false)
    (hig : s.end_ignore_inputs_until ≤ now) :
    uvsSel s now = selectTarget s now false := by
  unfold uvsSel uvsSuppressed
  have h1 : (beginViewState s now).end_ignore_inputs_until = s.end_ignore_inputs_until := rfl
  have h2 : (beginViewState s now).end_alignment_active = s.end_alignment_active := rfl
  rw [h1, h2, halign]
  rw [decide_eq_false (by omega : ¬now < s.end_ignore_inputs_until)]
  rfl

lemma capturePuttyAnchor_id (s : AppState) (pr : Option IRect)
    (hkey : s.end_key_down = false) (halign : s.end_alignment_active = false) :
    capturePuttyAnchor s pr = s := by
  unfold capturePuttyAnchor
  rw [if_neg]
  simp [hkey, halign]

lemma updateEndAlignment_id (s : AppState) (now : ℕ)
    (hkey : s.end_key_down = false) (halign : s.end_alignment_active = false) :
    updateEndAlignment s now = s := by
  unfold updateEndAlignment
  simp [hkey, halign]

lemma applyMessengerClamp_id (s : AppState) (hw hh fw fh : ℚ)
    (h : s.messenger_zone_active = false) :
    applyMessengerClamp s hw hh fw fh = s := by
  unfold applyMessengerClamp
  simp [h]

@[simp] lemma recordPreviousCenter_center_x (s : AppState) (now : ℕ) (d2 : ℚ) :
    (recordPreviousCenter s now d2).current_center_x = s.current_center_x := by
  unfold recordPreviousCenter
  split_ifs <;> rfl

@[simp] lemma recordPreviousCenter_center_y (s : AppState) (now : ℕ) (d2 : ℚ) :
    (recordPreviousCenter s now d2).current_center_y = s.current_center_y := by
  unfold recordPreviousCenter
  split_ifs <;> rfl

@[simp] lemma recordPreviousCenter_messenger (s : AppState) (now : ℕ) (d2 : ℚ) :
    (recordPreviousCenter s now d2).messenger_zone_active = s.messenger_zone_active := by
  unfold recordPreviousCenter
  split_ifs <;> rfl

@[simp] lemma recordPreviousCenter_zoom (s : AppState) (now : ℕ) (d2 : ℚ) :
    (recordPreviousCenter s now d2).zoom = s.zoom := by
  unfold recordPreviousCenter
  split_ifs <;> rfl

@[simp] lemma recordPreviousCenter_click_lock (s : AppState) (now : ℕ) (d2 : ℚ) :
    (recordPreviousCenter s now d2).click_lock_active = s.click_lock_active := by
  unfold recordPreviousCenter
  split_ifs <;> rfl

@[simp] lemma recordPreviousCenter_has_last_click (s : AppState) (now : ℕ) (d2 : ℚ) :
    (recordPreviousCenter s now d2).has_last_click = s.has_last_click := by
  unfold recordPreviousCenter
  split_ifs <;> rfl

@[simp] lemma recordPreviousCenter_click_source (s : AppState) (now : ℕ) (d2 : ℚ) :
    (recordPreviousCenter s now d2).last_click_source = s.last_click_source := by
  unfold recordPreviousCenter
  split_ifs <;> rfl

@[simp] lemma recordPreviousCenter_click_tick (s : AppState) (now : ℕ) (d2 : ℚ) :
    (recordPreviousCenter s now d2).last_click_tick = s.last_click_tick := by
  unfold recordPreviousCenter
  split_ifs <;> rfl

lemma snapCenterTo_skip_fields (s : AppState) (x y : ℚ) (now : ℕ) :
    (snapCenterTo s x y now true).current_center_x = x ∧
    (snapCenterTo s x y now true).current_center_y = y ∧
    (snapCenterTo s x y now true).messenger_zone_active = s.messenger_zone_active ∧
    (snapCenterTo s x y now true).zoom = s.zoom := by
  unfold snapCenterTo
  rw [if_neg (by simp : ¬((true : Bool) = false))]
  dsimp only
  split_ifs <;> simp

lemma clampCenterAndRegion_center_x (s : AppState) (hw hh vw vh fw fh : ℚ) :
    (clampCenterAndRegion s hw hh vw vh fw fh).current_center_x =
      clampQ s.current_center_x hw (fw - hw) := rfl

lemma clampCenterAndRegion_center_y (s : AppState) (hw hh vw vh fw fh : ℚ) :
    (clampCenterAndRegion s hw hh vw vh fw fh).current_center_y =
      clampQ s.current_center_y hh (fh - hh) := rfl

lemma selectTarget_caret (s : AppState) (now : ℕ) (P : QPoint)
    (hmode : s.tracking_mode = TrackingMode.Caret ∨ s.tracking_mode = TrackingMode.Auto)
    (hfresh : qwordSub now s.last_caret_tick ≤ kCaretFollowTimeoutMs)
    (hmap : screenToSource s.source_monitor s.caret_position = some P) :
    selectTarget s now false = (some (⟨P.x + 4, P.y⟩, true), now) := by
  have hct : caretTarget s now false = some ⟨P.x + 4, P.y⟩ := by
    unfold caretTarget
    rw [if_neg (by simp), if_neg (Nat.not_lt.mpr hfresh), hmap]
  rcases hmode with hm | hm <;> unfold selectTarget <;> rw [hm] <;> simp [hct]

/-- The center produced by a resolution that adopts a fresh caret
target mapping to `P`: exactly `P` plus the 4-pixel x offset, run
through the always-on frame-bounds clamp — independent of the previous
center, the click-lock state and the dead zone. -/
lemma caret_path_center (s : AppState) (now W H : ℕ) (pr : Option IRect) (P : QPoint)
    (hW : W ≠ 0) (hH : H ≠ 0)
    (hmode : s.tracking_mode = TrackingMode.Caret ∨ s.tracking_mode = TrackingMode.Auto)
    (hkey : s.end_key_down = false)
    (halign : s.end_alignment_active = false)
    (hig : s.end_ignore_inputs_until ≤ now)
    (hc : s.has_center = true)
    (hmz : s.messenger_zone_active = false)
    (hfresh : qwordSub now s.last_caret_tick ≤ kCaretFollowTimeoutMs)
    (hmap : screenToSource s.source_monitor s.caret_position = some P) :
    (updateViewState s now W H pr).current_center_x =
      clampQ (P.x + 4) (viewExtent W s.zoom / 2) ((W : ℚ) - viewExtent W s.zoom / 2) ∧
    (updateViewState s now W H pr).current_center_y =
      clampQ P.y (viewExtent H s.zoom / 2) ((H : ℚ) - viewExtent H s.zoom / 2) := by
  have h0 : ¬(W = 0 ∨ H = 0) := by omega
  rw [updateViewState_eq s now W H pr h0]
  have hsel : uvsSel s now = (some (⟨P.x + 4, P.y⟩, true), now) := by
    rw [uvsSel_eq_selectTarget s now halign hig]
    exact selectTarget_caret s now P hmode hfresh hmap
  have hputty : capturePuttyAnchor (uvsMid s now) pr = uvsMid s now :=
    capturePuttyAnchor_id _ _ (by rw [uvsMid_end_key_down, hkey])
      (by rw [uvsMid_end_alignment_active, halign])
  have hend : updateEndAlignment (uvsMid s now) now = uvsMid s now :=
    updateEndAlignment_id _ _ (by rw [uvsMid_end_key_down, hkey])
      (by rw [uvsMid_end_alignment_active, halign])
  rw [hputty, hend, hsel]
  have hcu : applyCenterUpdate (uvsMid s now) now (some (⟨P.x + 4, P.y⟩, true))
      (uvsTarget (some (⟨P.x + 4, P.y⟩, true)) W H)
      (viewExtent W s.zoom) (viewExtent H s.zoom)
      (viewExtent W s.zoom / 2) (viewExtent H s.zoom / 2) (W : ℚ) (H : ℚ) =
      snapCenterTo (uvsMid s now) (P.x + 4) P.y now true := by
    unfold applyCenterUpdate
    rw [if_neg, if_neg]
    · rw [uvsMid_has_center, hc]; simp
    · rw [uvsMid_end_alignment_active, halign]; simp
  rw [hcu]
  obtain ⟨hcx, hcy, hmz', hz'⟩ := snapCenterTo_skip_fields (uvsMid s now) (P.x + 4) P.y now
  rw [applyMessengerClamp_id _ _ _ _ _ (by rw [hmz', uvsMid_messenger_zone_active, hmz])]
  rw [clampCenterAndRegion_center_x, clampCenterAndRegion_center_y, hcx, hcy]
  exact ⟨rfl, rfl⟩

/-- C2 (amended): with tracking inputs not suppressed by the END-key
anchor, a previous center present, the messenger-zone clamp inactive
and the offset caret point inside the legal center range, a caret
signal at most 600 ms old that maps to source point `P` makes one
resolution set the center exactly to `P` plus the fixed 4-pixel
caret-width x offset — for every previous center and every click-lock
state, with no smoothing lag, bypassing the dead zone and the
click-lock displacement limit. -/
theorem caret_adoption_snaps_center
    (s : AppState) (now W H : ℕ) (pr : Option IRect) (P : QPoint)
    (hW : W ≠ 0) (hH : H ≠ 0)
    (hmode : s.tracking_mode = TrackingMode.Caret ∨ s.tracking_mode = TrackingMode.Auto)
    (hkey : s.end_key_down = false)
    (halign : s.end_alignment_active = false)
    (hig : s.end_ignore_inputs_until ≤ now)
    (hc : s.has_center = true)
    (hmz : s.messenger_zone_active = false)
    (hfresh : qwordSub now s.last_caret_tick ≤ kCaretFollowTimeoutMs)
    (hmap : screenToSource s.source_monitor s.caret_position = some P)
    (hx1 : viewExtent W s.zoom / 2 ≤ P.x + 4)
    (hx2 : P.x + 4 ≤ (W : ℚ) - viewExtent W s.zoom / 2)
    (hy1 : viewExtent H s.zoom / 2 ≤ P.y)
    (hy2 : P.y ≤ (H : ℚ) - viewExtent H s.zoom / 2) :
    (updateViewState s now W H pr).current_center_x = P.x + 4 ∧
    (updateViewState s now W H pr).current_center_y = P.y := by
  obtain ⟨hx, hy⟩ := caret_path_center s now W H pr P hW hH hmode hkey halign hig hc
    hmz hfresh hmap
  rw [hx, hy]
  exact ⟨clampQ_eq_self _ _ _ hx1 hx2, clampQ_eq_self _ _ _ hy1 hy2⟩

/-- C2 counterexample: in `sampleState` the caret signal is fresh and
maps to `P = (0, 0)`, yet the resolved center is not `P` plus the
4-pixel offset — the always-on frame-bounds clamp moves it to the
half-extent (480). -/
theorem caret_snap_clamped_at_frame_edge :
    qwordSub 1000 sampleState.last_caret_tick ≤ kCaretFollowTimeoutMs ∧
    screenToSource sampleState.source_monitor sampleState.caret_position =
      some ⟨0, 0⟩ ∧
    (updateViewState sampleState 1000 1920 1080 none).current_center_x ≠ (0 : ℚ) + 4 := by
  have hmap : screenToSource sampleState.source_monitor sampleState.caret_position =
      some ⟨0, 0⟩ := by
    norm_num [screenToSource, pointInRect, sampleState, sampleMonitor]
  have hfresh : qwordSub 1000 sampleState.last_caret_tick ≤ kCaretFollowTimeoutMs := by
    norm_num [qwordSub, sampleState, kCaretFollowTimeoutMs]
  refine ⟨hfresh, hmap, ?_⟩
  obtain ⟨hx, _⟩ := caret_path_center sampleState 1000 1920 1080 none ⟨0, 0⟩
    (by norm_num) (by norm_num) (Or.inl rfl) rfl rfl (by norm_num [sampleState]) rfl rfl
    hfresh hmap
  rw [hx]
  norm_num [clampQ, viewExtent, sampleState]

/-- Witness for C2 (amended) at a concrete input. -/
theorem caret_adoption_snaps_center_witness :
    (updateViewState caretWitnessState 1000 1920 1080 none).current_center_x = (960 : ℚ) + 4 ∧
    (updateViewState caretWitnessState 1000 1920 1080 none).current_center_y = (540 : ℚ) :=
  caret_adoption_snaps_center caretWitnessState 1000 1920 1080 none ⟨960, 540⟩
    (by norm_num) (by norm_num) (Or.inl rfl) rfl rfl (by norm_num [caretWitnessState, sampleState])
    rfl rfl
    (by norm_num [qwordSub, caretWitnessState, sampleState, kCaretFollowTimeoutMs])
    (by norm_num [screenToSource, pointInRect, caretWitnessState, sampleState, sampleMonitor])
    (by norm_num [viewExtent, caretWitnessState, sampleState])
    (by norm_num [viewExtent, caretWitnessState, sampleState])
    (by norm_num [viewExtent, caretWitnessState, sampleState])
    (by norm_num [viewExtent, caretWitnessState, sampleState])

/-- C3 counterexample: although the pointer signal is fresh, maps into
the source monitor, and is strictly newer than the last caret-driven
center update, the Auto-mode resolution still adopts the caret target —
a pointer update never invalidates the priority of a fresh caret. -/
theorem auto_fresh_caret_beats_newer_pointer :
    autoCounterState.tracking_mode = TrackingMode.Auto ∧
    autoCounterState.last_caret_target_tick < autoCounterState.last_mouse_tick ∧
    qwordSub 1000 autoCounterState.last_mouse_tick ≤ kMouseFollowTimeoutMs ∧
    qwordSub 1000 autoCounterState.last_caret_tick ≤ kCaretFollowTimeoutMs ∧
    mouseTarget autoCounterState 1000 false = some ⟨500, 500⟩ ∧
    (selectTarget autoCounterState 1000 false).1 = some (⟨4, 0⟩, true) := by
  have hct : caretTarget autoCounterState 1000 false = some ⟨4, 0⟩ := by
    norm_num [caretTarget, screenToSource, pointInRect, qwordSub,
      autoCounterState, sampleState, sampleMonitor, kCaretFollowTimeoutMs]
  refine ⟨rfl, by norm_num [autoCounterState, sampleState],
    by norm_num [qwordSub, autoCounterState, sampleState, kMouseFollowTimeoutMs],
    by norm_num [qwordSub, autoCounterState, sampleState, kCaretFollowTimeoutMs], ?_, ?_⟩
  · norm_num [mouseTarget, screenToSource, pointInRect, qwordSub,
      autoCounterState, sampleState, sampleMonitor, kMouseFollowTimeoutMs]
  · unfold selectTarget
    rw [show autoCounterState.tracking_mode = TrackingMode.Auto from rfl, hct]

/-- C3 (amended): in Auto mode, one resolution prefers the caret target
whenever the caret signal is fresh (within 600 ms) and maps into the
source monitor — regardless of newer pointer events; otherwise the
pointer target when fresh (within 160 ms), mapped, and strictly newer
than the last caret-driven center update (a pointer adoption also
resets that timestamp to zero); otherwise the focus target when fresh
(within 900 ms) and mapped; otherwise no target. -/
theorem auto_mode_priority (s : AppState) (now : ℕ)
    (hm : s.tracking_mode = TrackingMode.Auto) :
    (∀ t, caretTarget s now false = some t →
        selectTarget s now false = (some (t, true), now)) ∧
    (caretTarget s now false = none → ∀ t, mouseTarget s now false = some t →
        selectTarget s now false = (some (t, false), 0)) ∧
    (caretTarget s now false = none → mouseTarget s now false = none →
        ∀ t, focusTarget s now false = some t →
        selectTarget s now false = (some (t, false), s.last_caret_target_tick)) ∧
    (caretTarget s now false = none → mouseTarget s now false = none →
        focusTarget s now false = none →
        selectTarget s now false = (none, s.last_caret_target_tick)) ∧
    (s.last_mouse_tick ≤ s.last_caret_target_tick → mouseTarget s now false = none) := by
  refine ⟨?_, ?_, ?_, ?_, ?_⟩
  · intro t h
    unfold selectTarget
    rw [hm, h]
  · intro hc t h
    unfold selectTarget
    rw [hm, hc, h]
  · intro hc hmo t h
    unfold selectTarget
    rw [hm, hc, hmo, h]
  · intro hc hmo hf
    unfold selectTarget
    rw [hm, hc, hmo, hf]
  · intro h
    unfold mouseTarget
    rw [if_neg (by simp)]
    split_ifs with h1 h2
    · rfl
    · rfl
    · exact absurd ⟨hm, h⟩ h2

/-- Witness for C3 (amended) at a concrete input. -/
theorem auto_mode_priority_witness :
    selectTarget autoPointerState 1000 false = (some (⟨500, 500⟩, false), 0) :=
  (auto_mode_priority autoPointerState 1000 rfl).2.1
    (by norm_num [caretTarget, qwordSub, autoPointerState, sampleState, kCaretFollowTimeoutMs])
    ⟨500, 500⟩
    (by norm_num [mouseTarget, screenToSource, pointInRect, qwordSub,
      autoPointerState, sampleState, sampleMonitor, kMouseFollowTimeoutMs])

lemma clampCenterAndRegion_zoom (s : AppState) (hw hh vw vh fw fh : ℚ) :
    (clampCenterAndRegion s hw hh vw vh fw fh).view_state.zoom = s.zoom := rfl

lemma clampCenterAndRegion_end_key_down (s : AppState) (hw hh vw vh fw fh : ℚ) :
    (clampCenterAndRegion s hw hh vw vh fw fh).end_key_down = s.end_key_down := rfl

lemma clampCenterAndRegion_end_alignment_active (s : AppState) (hw hh vw vh fw fh : ℚ) :
    (clampCenterAndRegion s hw hh vw vh fw fh).end_alignment_active =
      s.end_alignment_active := rfl

lemma clampCenterAndRegion_end_ignore (s : AppState) (hw hh vw vh fw fh : ℚ) :
    (clampCenterAndRegion s hw hh vw vh fw fh).end_ignore_inputs_until =
      s.end_ignore_inputs_until := rfl

lemma clampCenterAndRegion_has_center (s : AppState) (hw hh vw vh fw fh : ℚ) :
    (clampCenterAndRegion s hw hh vw vh fw fh).has_center = s.has_center := rfl

lemma clampCenterAndRegion_messenger (s : AppState) (hw hh vw vh fw fh : ℚ) :
    (clampCenterAndRegion s hw hh vw vh fw fh).messenger_zone_active =
      s.messenger_zone_active := rfl

lemma clampCenterAndRegion_state_zoom (s : AppState) (hw hh vw vh fw fh : ℚ) :
    (clampCenterAndRegion s hw hh vw vh fw fh).zoom = s.zoom := rfl

/-- A resolution whose adopted target is absent, or non-caret and
within the dead zone, leaves the center-update phase untouched: with no
anchor and no messenger zone, the whole call reduces to the frame-bounds
clamp of the previous state. -/
lemma updateViewState_holds_center (s : AppState) (now W H : ℕ) (pr : Option IRect)
    (hW : W ≠ 0) (hH : H ≠ 0)
    (hkey : s.end_key_down = false)
    (halign : s.end_alignment_active = false)
    (hig : s.end_ignore_inputs_until ≤ now)
    (hc : s.has_center = true)
    (hmz : s.messenger_zone_active = false)
    (hsel : (selectTarget s now false).1 = none ∨
      ∃ t, (selectTarget s now false).1 = some (t, false) ∧
        (t.x - s.current_center_x) * (t.x - s.current_center_x) +
          (t.y - s.current_center_y) * (t.y - s.current_center_y) ≤
          deadZonePixels * deadZonePixels) :
    updateViewState s now W H pr =
      clampCenterAndRegion (uvsMid s now)
        (viewExtent W s.zoom / 2) (viewExtent H s.zoom / 2)
        (viewExtent W s.zoom) (viewExtent H s.zoom) (W : ℚ) (H : ℚ) := by
  have h0 : ¬(W = 0 ∨ H = 0) := by omega
  rw [updateViewState_eq s now W H pr h0]
  have hse : uvsSel s now = selectTarget s now false :=
    uvsSel_eq_selectTarget s now halign hig
  rw [capturePuttyAnchor_id _ _ (by rw [uvsMid_end_key_down, hkey])
        (by rw [uvsMid_end_alignment_active, halign]),
      updateEndAlignment_id _ _ (by rw [uvsMid_end_key_down, hkey])
        (by rw [uvsMid_end_alignment_active, halign])]
  have hcu : applyCenterUpdate (uvsMid s now) now (uvsSel s now).1
      (uvsTarget (uvsSel s now).1 W H)
      (viewExtent W s.zoom) (viewExtent H s.zoom)
      (viewExtent W s.zoom / 2) (viewExtent H s.zoom / 2) (W : ℚ) (H : ℚ) =
      uvsMid s now := by
    rcases hsel with hnone | ⟨t, hsome, hdz⟩
    · rw [hse, hnone]
      unfold applyCenterUpdate
      rw [if_neg (by rw [uvsMid_end_alignment_active, halign]; simp),
          if_neg (by rw [uvsMid_has_center, hc]; simp)]
    · rw [hse, hsome]
      unfold applyCenterUpdate
      rw [if_neg (by rw [uvsMid_end_alignment_active, halign]; simp),
          if_neg (by rw [uvsMid_has_center, hc]; simp)]
      show smoothTowards (uvsMid s now) t now = uvsMid s now
      unfold smoothTowards
      rw [if_neg]
      rw [uvsMid_current_center_x, uvsMid_current_center_y]
      exact not_lt.mpr hdz
  rw [hcu,
    applyMessengerClamp_id _ _ _ _ _ (by rw [uvsMid_messenger_zone_active, hmz])]

/-- C7: if no positional signal is fresh enough for the active mode
(the resolution adopts no target) and no special anchor or messenger
zone is active, one resolution keeps the previous center unchanged (no
default recentring); the emitted zoom is the zoom already in effect. -/
theorem no_fresh_signal_keeps_center (s : AppState) (now W H : ℕ) (pr : Option IRect)
    (hW : W ≠ 0) (hH : H ≠ 0)
    (hkey : s.end_key_down = false)
    (halign : s.end_alignment_active = false)
    (hig : s.end_ignore_inputs_until ≤ now)
    (hc : s.has_center = true)
    (hmz : s.messenger_zone_active = false)
    (hsel : (selectTarget s now false).1 = none)
    (hrx1 : viewExtent W s.zoom / 2 ≤ s.current_center_x)
    (hrx2 : s.current_center_x ≤ (W : ℚ) - viewExtent W s.zoom / 2)
    (hry1 : viewExtent H s.zoom / 2 ≤ s.current_center_y)
    (hry2 : s.current_center_y ≤ (H : ℚ) - viewExtent H s.zoom / 2) :
    (updateViewState s now W H pr).current_center_x = s.current_center_x ∧
    (updateViewState s now W H pr).current_center_y = s.current_center_y ∧
    (updateViewState s now W H pr).view_state.zoom = s.zoom := by
  rw [updateViewState_holds_center s now W H pr hW hH hkey halign hig hc hmz
    (Or.inl hsel)]
  rw [clampCenterAndRegion_center_x, clampCenterAndRegion_center_y,
    clampCenterAndRegion_zoom, uvsMid_current_center_x, uvsMid_current_center_y,
    uvsMid_zoom]
  exact ⟨clampQ_eq_self _ _ _ hrx1 hrx2, clampQ_eq_self _ _ _ hry1 hry2, rfl⟩

/-- Witness for C7 at a concrete input. -/
theorem no_fresh_signal_keeps_center_witness :
    (updateViewState holdState 1000 1920 1080 none).current_center_x =
      holdState.current_center_x ∧
    (updateViewState holdState 1000 1920 1080 none).current_center_y =
      holdState.current_center_y ∧
    (updateViewState holdState 1000 1920 1080 none).view_state.zoom = holdState.zoom :=
  no_fresh_signal_keeps_center holdState 1000 1920 1080 none
    (by norm_num) (by norm_num) rfl rfl (by norm_num [holdState, sampleState]) rfl rfl
    (by norm_num [selectTarget, caretTarget, qwordSub, holdState, sampleState,
      kCaretFollowTimeoutMs])
    (by norm_num [viewExtent, holdState, sampleState])
    (by norm_num [viewExtent, holdState, sampleState])
    (by norm_num [viewExtent, holdState, sampleState])
    (by norm_num [viewExtent, holdState, sampleState])

lemma selectTarget_congr (s' s : AppState) (now : ℕ) (b : Bool)
    (h1 : s'.tracking_mode = s.tracking_mode)
    (h2 : s'.last_caret_tick = s.last_caret_tick)
    (h3 : s'.last_mouse_tick = s.last_mouse_tick)
    (h4 : s'.last_focus_tick = s.last_focus_tick)
    (h5 : s'.last_caret_target_tick = s.last_caret_target_tick)
    (h6 : s'.caret_position = s.caret_position)
    (h7 : s'.mouse_position = s.mouse_position)
    (h8 : s'.focus_rect = s.focus_rect)
    (h9 : s'.source_monitor = s.source_monitor) :
    selectTarget s' now b = selectTarget s now b := by
  unfold selectTarget caretTarget mouseTarget focusTarget
  rw [h1, h2, h3, h4, h5, h6, h7, h8, h9]

lemma clampCenterAndRegion_signals (s : AppState) (hw hh vw vh fw fh : ℚ) :
    (clampCenterAndRegion s hw hh vw vh fw fh).tracking_mode = s.tracking_mode ∧
    (clampCenterAndRegion s hw hh vw vh fw fh).last_caret_tick = s.last_caret_tick ∧
    (clampCenterAndRegion s hw hh vw vh fw fh).last_mouse_tick = s.last_mouse_tick ∧
    (clampCenterAndRegion s hw hh vw vh fw fh).last_focus_tick = s.last_focus_tick ∧
    (clampCenterAndRegion s hw hh vw vh fw fh).last_caret_target_tick =
      s.last_caret_target_tick ∧
    (clampCenterAndRegion s hw hh vw vh fw fh).caret_position = s.caret_position ∧
    (clampCenterAndRegion s hw hh vw vh fw fh).mouse_position = s.mouse_position ∧
    (clampCenterAndRegion s hw hh vw vh fw fh).focus_rect = s.focus_rect ∧
    (clampCenterAndRegion s hw hh vw vh fw fh).source_monitor = s.source_monitor :=
  ⟨rfl, rfl, rfl, rfl, rfl, rfl, rfl, rfl, rfl⟩

lemma uvsMid_signals (s : AppState) (now : ℕ) :
    (uvsMid s now).tracking_mode = s.tracking_mode ∧
    (uvsMid s now).last_caret_tick = s.last_caret_tick ∧
    (uvsMid s now).last_mouse_tick = s.last_mouse_tick ∧
    (uvsMid s now).last_focus_tick = s.last_focus_tick ∧
    (uvsMid s now).last_caret_target_tick = (uvsSel s now).2 ∧
    (uvsMid s now).caret_position = s.caret_position ∧
    (uvsMid s now).mouse_position = s.mouse_position ∧
    (uvsMid s now).focus_rect = s.focus_rect ∧
    (uvsMid s now).source_monitor = s.source_monitor :=
  ⟨rfl, rfl, rfl, rfl, rfl, rfl, rfl, rfl, rfl⟩

/-- C6: if the chosen non-caret target lies within the dead zone
(distance at most 16 pixels, compared on squares) of a current center
that is inside the legal clamping range, resolution is idempotent:
resolving twice in a row with the same adopted target leaves the center
unchanged both times. -/
theorem dead_zone_resolution_idempotent
    (s : AppState) (now now' W H : ℕ) (pr pr' : Option IRect) (t : QPoint)
    (hW : W ≠ 0) (hH : H ≠ 0)
    (hkey : s.end_key_down = false)
    (halign : s.end_alignment_active = false)
    (hig : s.end_ignore_inputs_until ≤ now)
    (hig' : s.end_ignore_inputs_until ≤ now')
    (hc : s.has_center = true)
    (hmz : s.messenger_zone_active = false)
    (hsel : (selectTarget s now false).1 = some (t, false))
    (hdz : (t.x - s.current_center_x) * (t.x - s.current_center_x) +
      (t.y - s.current_center_y) * (t.y - s.current_center_y) ≤
      deadZonePixels * deadZonePixels)
    (hsel' : (selectTarget (updateViewState s now W H pr) now' false).1 =
      some (t, false))
    (hrx1 : viewExtent W s.zoom / 2 ≤ s.current_center_x)
    (hrx2 : s.current_center_x ≤ (W : ℚ) - viewExtent W s.zoom / 2)
    (hry1 : viewExtent H s.zoom / 2 ≤ s.current_center_y)
    (hry2 : s.current_center_y ≤ (H : ℚ) - viewExtent H s.zoom / 2) :
    (updateViewState s now W H pr).current_center_x = s.current_center_x ∧
    (updateViewState s now W H pr).current_center_y = s.current_center_y ∧
    (updateViewState (updateViewState s now W H pr) now' W H pr').current_center_x =
      s.current_center_x ∧
    (updateViewState (updateViewState s now W H pr) now' W H pr').current_center_y =
      s.current_center_y := by
  have hstep := updateViewState_holds_center s now W H pr hW hH hkey halign hig hc hmz
    (Or.inr ⟨t, hsel, hdz⟩)
  have h1x : (updateViewState s now W H pr).current_center_x = s.current_center_x := by
    rw [hstep, clampCenterAndRegion_center_x, uvsMid_current_center_x]
    exact clampQ_eq_self _ _ _ hrx1 hrx2
  have h1y : (updateViewState s now W H pr).current_center_y = s.current_center_y := by
    rw [hstep, clampCenterAndRegion_center_y, uvsMid_current_center_y]
    exact clampQ_eq_self _ _ _ hry1 hry2
  have hkey' : (updateViewState s now W H pr).end_key_down = false := by
    rw [hstep, clampCenterAndRegion_end_key_down, uvsMid_end_key_down]; exact hkey
  have halign' : (updateViewState s now W H pr).end_alignment_active = false := by
    rw [hstep, clampCenterAndRegion_end_alignment_active, uvsMid_end_alignment_active]
    exact halign
  have hig'' : (updateViewState s now W H pr).end_ignore_inputs_until ≤ now' := by
    rw [hstep, clampCenterAndRegion_end_ignore, uvsMid_end_ignore_inputs_until]
    exact hig'
  have hc' : (updateViewState s now W H pr).has_center = true := by
    rw [hstep, clampCenterAndRegion_has_center, uvsMid_has_center]; exact hc
  have hmz' : (updateViewState s now W H pr).messenger_zone_active = false := by
    rw [hstep, clampCenterAndRegion_messenger, uvsMid_messenger_zone_active]; exact hmz
  have hzoom' : (updateViewState s now W H pr).zoom = s.zoom := by
    rw [hstep, clampCenterAndRegion_state_zoom, uvsMid_zoom]
  have hdz' : (t.x - (updateViewState s now W H pr).current_center_x) *
      (t.x - (updateViewState s now W H pr).current_center_x) +
      (t.y - (updateViewState s now W H pr).current_center_y) *
      (t.y - (updateViewState s now W H pr).current_center_y) ≤
      deadZonePixels * deadZonePixels := by
    rw [h1x, h1y]; exact hdz
  have hstep2 := updateViewState_holds_center (updateViewState s now W H pr) now' W H pr'
    hW hH hkey' halign' hig'' hc' hmz' (Or.inr ⟨t, hsel', hdz'⟩)
  have h2x : (updateViewState (updateViewState s now W H pr) now' W H pr').current_center_x =
      s.current_center_x := by
    rw [hstep2, clampCenterAndRegion_center_x, uvsMid_current_center_x, hzoom', h1x]
    exact clampQ_eq_self _ _ _ hrx1 hrx2
  have h2y : (updateViewState (updateViewState s now W H pr) now' W H pr').current_center_y =
      s.current_center_y := by
    rw [hstep2, clampCenterAndRegion_center_y, uvsMid_current_center_y, hzoom', h1y]
    exact clampQ_eq_self _ _ _ hry1 hry2
  exact ⟨h1x, h1y, h2x, h2y⟩

/-- Witness for C6 at a concrete input. -/
theorem dead_zone_resolution_idempotent_witness :
    (updateViewState deadZoneState 1000 1920 1080 none).current_center_x =
      deadZoneState.current_center_x ∧
    (updateViewState deadZoneState 1000 1920 1080 none).current_center_y =
      deadZoneState.current_center_y ∧
    (updateViewState (updateViewState deadZoneState 1000 1920 1080 none)
        1000 1920 1080 none).current_center_x = deadZoneState.current_center_x ∧
    (updateViewState (updateViewState deadZoneState 1000 1920 1080 none)
        1000 1920 1080 none).current_center_y = deadZoneState.current_center_y := by
  have hsel : (selectTarget deadZoneState 1000 false).1 = some (⟨965, 545⟩, false) := by
    norm_num [selectTarget, mouseTarget, screenToSource, pointInRect, qwordSub,
      deadZoneState, sampleState, sampleMonitor, kMouseFollowTimeoutMs]
  have hdz : ((965 : ℚ) - deadZoneState.current_center_x) *
      ((965 : ℚ) - deadZoneState.current_center_x) +
      ((545 : ℚ) - deadZoneState.current_center_y) *
      ((545 : ℚ) - deadZoneState.current_center_y) ≤
      deadZonePixels * deadZonePixels := by
    norm_num [deadZoneState, sampleState, deadZonePixels]
  have hstep := updateViewState_holds_center deadZoneState 1000 1920 1080 none
    (by norm_num) (by norm_num) rfl rfl (by norm_num [deadZoneState, sampleState])
    rfl rfl (Or.inr ⟨⟨965, 545⟩, hsel, hdz⟩)
  have hlct : (uvsSel deadZoneState 1000).2 = deadZoneState.last_caret_target_tick := by
    norm_num [uvsSel, uvsSuppressed, beginViewState, selectTarget, mouseTarget,
      screenToSource, pointInRect, qwordSub, deadZoneState, sampleState,
      sampleMonitor, kMouseFollowTimeoutMs]
  have hsel' : (selectTarget (updateViewState deadZoneState 1000 1920 1080 none)
      1000 false).1 = some (⟨965, 545⟩, false) := by
    have hcongr : selectTarget (updateViewState deadZoneState 1000 1920 1080 none)
        1000 false = selectTarget deadZoneState 1000 false := by
      rw [hstep]
      exact selectTarget_congr _ _ 1000 false rfl rfl rfl rfl hlct rfl rfl rfl rfl
    rw [hcongr]
    exact hsel
  exact dead_zone_resolution_idempotent deadZoneState 1000 1000 1920 1080 none none
    ⟨965, 545⟩ (by norm_num) (by norm_num) rfl rfl
    (by norm_num [deadZoneState, sampleState]) (by norm_num [deadZoneState, sampleState])
    rfl rfl hsel hdz hsel'
    (by norm_num [viewExtent, deadZoneState, sampleState])
    (by norm_num [viewExtent, deadZoneState, sampleState])
    (by norm_num [viewExtent, deadZoneState, sampleState])
    (by norm_num [viewExtent, deadZoneState, sampleState])

lemma applyClickMovementLimit_bound (s : AppState) (x y : ℚ) (now : ℕ) (C : QPoint)
    (hlock : s.click_lock_active = true) (hlast : s.has_last_click = true)
    (hsrc : s.last_click_source = some C) :
    |(applyClickMovementLimit s x y now).1 - C.x| ≤
      kClickLimitPixelsPerSecond * (((qwordSub now s.last_click_tick : ℕ) : ℚ) / 1000) ∧
    |(applyClickMovementLimit s x y now).2.1 - C.y| ≤
      kClickLimitPixelsPerSecond * (((qwordSub now s.last_click_tick : ℕ) : ℚ) / 1000) := by
  have hL0 : (0 : ℚ) ≤
      kClickLimitPixelsPerSecond * (((qwordSub now s.last_click_tick : ℕ) : ℚ) / 1000) := by
    unfold kClickLimitPixelsPerSecond
    positivity
  unfold applyClickMovementLimit
  rw [if_neg (by simp [hlock, hlast]), hsrc]
  dsimp only
  rw [if_neg (not_lt.mpr (by positivity))]
  split_ifs with hlim
  · constructor <;> simpa using hL0
  · constructor
    · have h := clampQ_mem x
        (C.x - kClickLimitPixelsPerSecond * (((qwordSub now s.last_click_tick : ℕ) : ℚ) / 1000))
        (C.x + kClickLimitPixelsPerSecond * (((qwordSub now s.last_click_tick : ℕ) : ℚ) / 1000))
        (by linarith)
      rw [abs_le]
      constructor <;> linarith [h.1, h.2]
    · have h := clampQ_mem y
        (C.y - kClickLimitPixelsPerSecond * (((qwordSub now s.last_click_tick : ℕ) : ℚ) / 1000))
        (C.y + kClickLimitPixelsPerSecond * (((qwordSub now s.last_click_tick : ℕ) : ℚ) / 1000))
        (by linarith)
      rw [abs_le]
      constructor <;> linarith [h.1, h.2]

lemma applyClickMovementLimit_messenger (s : AppState) (x y : ℚ) (now : ℕ) :
    (applyClickMovementLimit s x y now).2.2.messenger_zone_active =
      s.messenger_zone_active := by
  unfold applyClickMovementLimit
  split
  · rfl
  · split
    · rfl
    · dsimp only
      split <;> split <;> rfl

lemma smoothTowards_click_bound (s : AppState) (t : QPoint) (now : ℕ) (C : QPoint)
    (hlock : s.click_lock_active = true) (hlast : s.has_last_click = true)
    (hsrc : s.last_click_source = some C)
    (hdz : deadZonePixels * deadZonePixels <
      (t.x - s.current_center_x) * (t.x - s.current_center_x) +
      (t.y - s.current_center_y) * (t.y - s.current_center_y)) :
    |(smoothTowards s t now).current_center_x - C.x| ≤
      kClickLimitPixelsPerSecond * (((qwordSub now s.last_click_tick : ℕ) : ℚ) / 1000) ∧
    |(smoothTowards s t now).current_center_y - C.y| ≤
      kClickLimitPixelsPerSecond * (((qwordSub now s.last_click_tick : ℕ) : ℚ) / 1000) ∧
    (smoothTowards s t now).messenger_zone_active = s.messenger_zone_active := by
  unfold smoothTowards
  rw [if_pos hdz]
  dsimp only
  have hb := applyClickMovementLimit_bound
    (recordPreviousCenter s now
      ((t.x - s.current_center_x) * (t.x - s.current_center_x) +
        (t.y - s.current_center_y) * (t.y - s.current_center_y)))
    ((recordPreviousCenter s now
        ((t.x - s.current_center_x) * (t.x - s.current_center_x) +
          (t.y - s.current_center_y) * (t.y - s.current_center_y))).current_center_x +
      (t.x - s.current_center_x) * smoothingFactor)
    ((recordPreviousCenter s now
        ((t.x - s.current_center_x) * (t.x - s.current_center_x) +
          (t.y - s.current_center_y) * (t.y - s.current_center_y))).current_center_y +
      (t.y - s.current_center_y) * smoothingFactor)
    now C
    (by rw [recordPreviousCenter_click_lock]; exact hlock)
    (by rw [recordPreviousCenter_has_last_click]; exact hlast)
    (by rw [recordPreviousCenter_click_source]; exact hsrc)
  rw [recordPreviousCenter_click_tick] at hb
  exact ⟨hb.1, hb.2,
    (applyClickMovementLimit_messenger _ _ _ now).trans
      (recordPreviousCenter_messenger _ _ _)⟩

/-- C5 (amended): while the click-lock anchored at source point `C` is
active, a resolution that moves the center through the non-caret
smoothing path keeps the resolved center within
`rate * Δt` (rate = 50 px/s, `Δt = now - last_click_tick`) of `C`
along each axis, provided the whole band around `C` lies inside the
legal clamping range; resolutions that leave the center unchanged,
caret snaps and anchor overrides are not subject to the bound. -/
theorem click_lock_bounds_smoothed_center
    (s : AppState) (now W H : ℕ) (pr : Option IRect) (t C : QPoint)
    (hW : W ≠ 0) (hH : H ≠ 0)
    (hkey : s.end_key_down = false)
    (halign : s.end_alignment_active = false)
    (hig : s.end_ignore_inputs_until ≤ now)
    (hc : s.has_center = true)
    (hmz : s.messenger_zone_active = false)
    (hsel : (selectTarget s now false).1 = some (t, false))
    (hdz : deadZonePixels * deadZonePixels <
      (t.x - s.current_center_x) * (t.x - s.current_center_x) +
      (t.y - s.current_center_y) * (t.y - s.current_center_y))
    (hlock : s.click_lock_active = true) (hlast : s.has_last_click = true)
    (hsrc : s.last_click_source = some C)
    (hbx1 : viewExtent W s.zoom / 2 ≤
      C.x - kClickLimitPixelsPerSecond * (((qwordSub now s.last_click_tick : ℕ) : ℚ) / 1000))
    (hbx2 : C.x + kClickLimitPixelsPerSecond * (((qwordSub now s.last_click_tick : ℕ) : ℚ) / 1000) ≤
      (W : ℚ) - viewExtent W s.zoom / 2)
    (hby1 : viewExtent H s.zoom / 2 ≤
      C.y - kClickLimitPixelsPerSecond * (((qwordSub now s.last_click_tick : ℕ) : ℚ) / 1000))
    (hby2 : C.y + kClickLimitPixelsPerSecond * (((qwordSub now s.last_click_tick : ℕ) : ℚ) / 1000) ≤
      (H : ℚ) - viewExtent H s.zoom / 2) :
    |(updateViewState s now W H pr).current_center_x - C.x| ≤
      kClickLimitPixelsPerSecond * (((qwordSub now s.last_click_tick : ℕ) : ℚ) / 1000) ∧
    |(updateViewState s now W H pr).current_center_y - C.y| ≤
      kClickLimitPixelsPerSecond * (((qwordSub now s.last_click_tick : ℕ) : ℚ) / 1000) := by
  have h0 : ¬(W = 0 ∨ H = 0) := by omega
  rw [updateViewState_eq s now W H pr h0]
  have hse : uvsSel s now = selectTarget s now false :=
    uvsSel_eq_selectTarget s now halign hig
  rw [capturePuttyAnchor_id _ _ (by rw [uvsMid_end_key_down, hkey])
        (by rw [uvsMid_end_alignment_active, halign]),
      updateEndAlignment_id _ _ (by rw [uvsMid_end_key_down, hkey])
        (by rw [uvsMid_end_alignment_active, halign])]
  have hcu : applyCenterUpdate (uvsMid s now) now (uvsSel s now).1
      (uvsTarget (uvsSel s now).1 W H)
      (viewExtent W s.zoom) (viewExtent H s.zoom)
      (viewExtent W s.zoom / 2) (viewExtent H s.zoom / 2) (W : ℚ) (H : ℚ) =
      smoothTowards (uvsMid s now) t now := by
    rw [hse, hsel]
    unfold applyCenterUpdate
    rw [if_neg (by rw [uvsMid_end_alignment_active, halign]; simp),
        if_neg (by rw [uvsMid_has_center, hc]; simp)]
  rw [hcu]
  obtain ⟨hbx, hby, hmzp⟩ := smoothTowards_click_bound (uvsMid s now) t now C
    hlock hlast hsrc (by rw [uvsMid_current_center_x, uvsMid_current_center_y]; exact hdz)
  rw [uvsMid_last_click_tick] at hbx hby
  rw [applyMessengerClamp_id _ _ _ _ _
    (by rw [hmzp, uvsMid_messenger_zone_active, hmz])]
  rw [clampCenterAndRegion_center_x, clampCenterAndRegion_center_y]
  rw [abs_le] at hbx hby
  constructor
  · rw [clampQ_eq_self _ _ _ (by linarith [hbx.1]) (by linarith [hbx.2])]
    rw [abs_le]
    exact ⟨hbx.1, hbx.2⟩
  · rw [clampQ_eq_self _ _ _ (by linarith [hby.1]) (by linarith [hby.2])]
    rw [abs_le]
    exact ⟨hby.1, hby.2⟩

/-- C5 counterexample: 16 ms after the click the lock is active and the
pointer has not moved, yet the resolved center (held unchanged because
no signal is fresh) is 950 pixels from the click point — far beyond
`rate * Δt = 0.8` pixels. -/
theorem click_lock_bound_violated_when_center_held :
    clickHoldState.click_lock_active = true ∧
    clickHoldState.has_last_click = true ∧
    clickHoldState.last_click_source = some ⟨10, 10⟩ ∧
    ¬(|(updateViewState clickHoldState 1016 1920 1080 none).current_center_x - (10 : ℚ)| ≤
      kClickLimitPixelsPerSecond *
        (((qwordSub 1016 clickHoldState.last_click_tick : ℕ) : ℚ) / 1000)) := by
  refine ⟨rfl, rfl, rfl, ?_⟩
  have hsel : (selectTarget clickHoldState 1016 false).1 = none := by
    norm_num [selectTarget, caretTarget, qwordSub, clickHoldState, sampleState,
      kCaretFollowTimeoutMs]
  have hstep := updateViewState_holds_center clickHoldState 1016 1920 1080 none
    (by norm_num) (by norm_num) rfl rfl (by norm_num [clickHoldState, sampleState])
    rfl rfl (Or.inl hsel)
  rw [hstep, clampCenterAndRegion_center_x, uvsMid_current_center_x]
  norm_num [clampQ, viewExtent, qwordSub, clickHoldState, sampleState,
    kClickLimitPixelsPerSecond]

/-- Witness for C5 (amended) at a concrete input. -/
theorem click_lock_bounds_smoothed_center_witness :
    |(updateViewState clickLockState 1016 1920 1080 none).current_center_x - (600 : ℚ)| ≤
      kClickLimitPixelsPerSecond *
        (((qwordSub 1016 clickLockState.last_click_tick : ℕ) : ℚ) / 1000) ∧
    |(updateViewState clickLockState 1016 1920 1080 none).current_center_y - (500 : ℚ)| ≤
      kClickLimitPixelsPerSecond *
        (((qwordSub 1016 clickLockState.last_click_tick : ℕ) : ℚ) / 1000) :=
  click_lock_bounds_smoothed_center clickLockState 1016 1920 1080 none
    ⟨800, 600⟩ ⟨600, 500⟩
    (by norm_num) (by norm_num) rfl rfl (by norm_num [clickLockState, sampleState])
    rfl rfl
    (by norm_num [selectTarget, mouseTarget, screenToSource, pointInRect, qwordSub,
      clickLockState, sampleState, sampleMonitor, kMouseFollowTimeoutMs])
    (by norm_num [clickLockState, sampleState, deadZonePixels])
    rfl rfl rfl
    (by norm_num [viewExtent, qwordSub, clickLockState, sampleState,
      kClickLimitPixelsPerSecond])
    (by norm_num [viewExtent, qwordSub, clickLockState, sampleState,
      kClickLimitPixelsPerSecond])
    (by norm_num [viewExtent, qwordSub, clickLockState, sampleState,
      kClickLimitPixelsPerSecond])
    (by norm_num [viewExtent, qwordSub, clickLockState, sampleState,
      kClickLimitPixelsPerSecond])

/-- C4 counterexample: when `AcquireNextFrame` succeeds but the query
for the texture interface of the frame fails (capture_engine.cpp lines
88-95), `AcquireFrame` returns none — an acquisition failure that is
neither a timeout nor a session invalidation — yet
`NeedsReinitialize()` stays false. -/
theorem acquireFrame_query_failure_keeps_reinit_false :
    (acquireFrame liveCapture (AcquireOutcome.success false)).1 = none ∧
    (acquireFrame liveCapture (AcquireOutcome.success false)).2.needsReinit = false := by
  decide

/-- C4 (amended): a frame-wait timeout returns none and leaves
`NeedsReinitialize()` unchanged (false stays false); a session
invalidation returns none, tears down the duplication session and sets
`NeedsReinitialize()`; every other failing `AcquireNextFrame` HRESULT
also sets `NeedsReinitialize()` — but a failure to query the texture
interface of the acquired frame returns none without touching the flag; a
subsequent successful `Reinitialize()` rebuilds the session for the
remembered source monitor (no re-selection) and clears the flag. -/
theorem acquireFrame_reinitialize_spec (s : CaptureState)
    (hdup : s.hasDuplication = true) :
    ((acquireFrame s AcquireOutcome.timeout).1 = none ∧
      (acquireFrame s AcquireOutcome.timeout).2.needsReinit =
        s.needsReinit) ∧
    ((acquireFrame s AcquireOutcome.accessLost).1 = none ∧
      (acquireFrame s AcquireOutcome.accessLost).2.needsReinit = true ∧
      (acquireFrame s AcquireOutcome.accessLost).2.hasDuplication = false) ∧
    ((acquireFrame s AcquireOutcome.otherFailure).1 = none ∧
      (acquireFrame s AcquireOutcome.otherFailure).2.needsReinit = true ∧
      (acquireFrame s AcquireOutcome.otherFailure).2.hasDuplication = false) ∧
    ((acquireFrame s (AcquireOutcome.success false)).1 = none ∧
      (acquireFrame s (AcquireOutcome.success false)).2.needsReinit =
        s.needsReinit) ∧
    ((acquireFrame s (AcquireOutcome.success true)).1 = some ()) ∧
    (∀ m, s.sourceMonitor = some m → ∀ deviceOk,
      (s.hasDevice = true ∨ deviceOk = true) →
      (reinitializeEngine s deviceOk true).1 = true ∧
      (reinitializeEngine s deviceOk true).2.needsReinit = false ∧
      (reinitializeEngine s deviceOk true).2.hasDuplication = true ∧
      (reinitializeEngine s deviceOk true).2.sourceMonitor = s.sourceMonitor) := by
  refine ⟨?_, ?_, ?_, ?_, ?_, ?_⟩
  · unfold acquireFrame
    rw [if_neg (by simp [hdup])]
    dsimp only
    split_ifs <;> first | exact ⟨rfl, rfl⟩ | simp_all
  · unfold acquireFrame
    rw [if_neg (by simp [hdup])]
    dsimp only
    exact ⟨rfl, rfl, rfl⟩
  · unfold acquireFrame
    rw [if_neg (by simp [hdup])]
    dsimp only
    exact ⟨rfl, rfl, rfl⟩
  · unfold acquireFrame
    rw [if_neg (by simp [hdup])]
    dsimp only
    split_ifs <;> first | exact ⟨rfl, rfl⟩ | simp_all
  · unfold acquireFrame
    rw [if_neg (by simp [hdup])]
    dsimp only
    split_ifs <;> first | rfl | simp_all
  · intro m hm deviceOk hdev
    unfold reinitializeEngine
    rw [hm]
    have hcond : ¬(s.hasDevice = false ∧ deviceOk = false) := by
      rcases hdev with h | h <;> simp [h]
    rw [if_neg hcond]
    exact ⟨rfl, rfl, rfl, rfl⟩

/-- Witness for C4 (amended) at a concrete input. -/
theorem acquireFrame_reinitialize_spec_witness :
    (acquireFrame liveCapture AcquireOutcome.timeout).1 = none ∧
    (acquireFrame liveCapture AcquireOutcome.timeout).2.needsReinit = false ∧
    (acquireFrame liveCapture AcquireOutcome.accessLost).2.needsReinit = true ∧
    (reinitializeEngine liveCapture true true).1 = true ∧
    (reinitializeEngine liveCapture true true).2.needsReinit = false ∧
    (reinitializeEngine liveCapture true true).2.sourceMonitor = some 0 := by
  have h := acquireFrame_reinitialize_spec liveCapture rfl
  refine ⟨h.1.1, h.1.2, h.2.1.2.1, ?_, ?_, ?_⟩
  · exact (h.2.2.2.2.2 0 rfl true (Or.inl rfl)).1
  · exact (h.2.2.2.2.2 0 rfl true (Or.inl rfl)).2.1
  · exact (h.2.2.2.2.2 0 rfl true (Or.inl rfl)).2.2.2

/-- C8 counterexample: the glyph spans source x in [67, 131] and y in
[150, 214], overlapping the crop [100,200]x[100,200] — it does not fall
entirely outside the crop — yet `DrawCursor` skips it, because the skip
test compares the cursor position point, not the glyph rectangle,
against the crop. -/
theorem cursor_overlapping_glyph_skipped :
    ((99 : ℚ) - 32 < 200 ∧ (100 : ℚ) < 99 - 32 + 64 ∧
     (150 : ℚ) < 200 ∧ (100 : ℚ) < 150 + 64) ∧
    drawCursor cursorCounterState cursorCounterView = none := by
  constructor
  · norm_num
  · decide

/-- C8 (amended): `DrawCursor` skips the glyph when the synthesized
cursor is unavailable, when the crop is degenerate, when the
`cursorPosition` point falls outside the crop rectangle, or when the
scaled glyph rectangle falls entirely outside the destination window;
otherwise it composites the glyph at `cursorPosition` minus the
pointer hotspot, scaled into destination-window pixels. -/
theorem drawCursor_skip_and_position (m : CursorState) (st : ViewState) :
    ((m.cursor_visible = false ∨ m.has_cursor_srv = false ∨
        m.has_pointer_vertex_buffer = false) → drawCursor m st = none) ∧
    ((st.cursor_x < (st.source_region.left : ℚ) ∨
        (st.source_region.right : ℚ) < st.cursor_x ∨
        st.cursor_y < (st.source_region.top : ℚ) ∨
        (st.source_region.bottom : ℚ) < st.cursor_y) → drawCursor m st = none) ∧
    (m.cursor_visible = true → m.has_cursor_srv = true →
      m.has_pointer_vertex_buffer = true →
      0 < ((st.source_region.right - st.source_region.left : ℤ) : ℚ) →
      0 < ((st.source_region.bottom - st.source_region.top : ℤ) : ℚ) →
      ¬(st.cursor_x < (st.source_region.left : ℚ) ∨
        (st.source_region.right : ℚ) < st.cursor_x ∨
        st.cursor_y < (st.source_region.top : ℚ) ∨
        (st.source_region.bottom : ℚ) < st.cursor_y) →
      ¬((st.cursor_x - (st.source_region.left : ℚ) - (m.cursor_hotspot.x : ℚ)) *
            ((m.window_size.cx : ℚ) / ((st.source_region.right - st.source_region.left : ℤ) : ℚ)) +
            (m.cursor_size.cx : ℚ) *
            ((m.window_size.cx : ℚ) / ((st.source_region.right - st.source_region.left : ℤ) : ℚ)) < 0 ∨
        (st.cursor_y - (st.source_region.top : ℚ) - (m.cursor_hotspot.y : ℚ)) *
            ((m.window_size.cy : ℚ) / ((st.source_region.bottom - st.source_region.top : ℤ) : ℚ)) +
            (m.cursor_size.cy : ℚ) *
            ((m.window_size.cy : ℚ) / ((st.source_region.bottom - st.source_region.top : ℤ) : ℚ)) < 0 ∨
        (m.window_size.cx : ℚ) <
          (st.cursor_x - (st.source_region.left : ℚ) - (m.cursor_hotspot.x : ℚ)) *
            ((m.window_size.cx : ℚ) / ((st.source_region.right - st.source_region.left : ℤ) : ℚ)) ∨
        (m.window_size.cy : ℚ) <
          (st.cursor_y - (st.source_region.top : ℚ) - (m.cursor_hotspot.y : ℚ)) *
            ((m.window_size.cy : ℚ) / ((st.source_region.bottom - st.source_region.top : ℤ) : ℚ))) →
      drawCursor m st = some
        ((st.cursor_x - (st.source_region.left : ℚ) - (m.cursor_hotspot.x : ℚ)) *
            ((m.window_size.cx : ℚ) / ((st.source_region.right - st.source_region.left : ℤ) : ℚ)),
         (st.cursor_y - (st.source_region.top : ℚ) - (m.cursor_hotspot.y : ℚ)) *
            ((m.window_size.cy : ℚ) / ((st.source_region.bottom - st.source_region.top : ℤ) : ℚ)),
         (st.cursor_x - (st.source_region.left : ℚ) - (m.cursor_hotspot.x : ℚ)) *
            ((m.window_size.cx : ℚ) / ((st.source_region.right - st.source_region.left : ℤ) : ℚ)) +
            (m.cursor_size.cx : ℚ) *
            ((m.window_size.cx : ℚ) / ((st.source_region.right - st.source_region.left : ℤ) : ℚ)),
         (st.cursor_y - (st.source_region.top : ℚ) - (m.cursor_hotspot.y : ℚ)) *
            ((m.window_size.cy : ℚ) / ((st.source_region.bottom - st.source_region.top : ℤ) : ℚ)) +
            (m.cursor_size.cy : ℚ) *
            ((m.window_size.cy : ℚ) / ((st.source_region.bottom - st.source_region.top : ℤ) : ℚ)))) := by
  refine ⟨?_, ?_, ?_⟩
  · intro h
    unfold drawCursor
    rw [if_pos h]
  · intro h
    unfold drawCursor
    dsimp only
    split_ifs <;> first | rfl | exact absurd h (by assumption)
  · intro hv hs hb h4 h5 hpt hwin
    unfold drawCursor
    rw [if_neg (by simp [hv, hs, hb])]
    dsimp only
    rw [if_neg (by rw [not_or]; exact ⟨not_le.mpr h4, not_le.mpr h5⟩)]
    rw [if_neg hpt]
    rw [if_neg hwin]

/-- Witness for C8 (amended) at a concrete input. -/
theorem drawCursor_skip_and_position_witness :
    drawCursor cursorWitnessState cursorWitnessView = some (50, 50, 114, 114) := by
  have h := (drawCursor_skip_and_position cursorWitnessState cursorWitnessView).2.2
    rfl rfl rfl (by norm_num [cursorWitnessView]) (by norm_num [cursorWitnessView])
    (by norm_num [cursorWitnessView])
    (by norm_num [cursorWitnessState, cursorWitnessView])
  rw [h]
  norm_num [cursorWitnessState, cursorWitnessView]

lemma collectRanges_length_le (rs : List (Option (List Char))) (acc : List Char)
    (h : acc.length ≤ kMaxSelectionLength) :
    (collectRanges rs acc).length ≤ kMaxSelectionLength := by
  induction rs generalizing acc with
  | nil => simpa [collectRanges] using h
  | cons r rest ih =>
    cases r with
    | none =>
      rw [collectRanges]
      exact ih acc h
    | some t =>
      rw [collectRanges]
      set acc2 := if acc.isEmpty = true then acc ++ t else acc ++ '\n' :: t with hacc2
      split_ifs with htr
      · simp [List.length_take]
      · exact ih _ (le_of_lt (not_le.mp htr))

lemma appendTexts_of_ne_nil (ts : List (List Char)) (acc : List Char) (h : acc ≠ []) :
    appendTexts acc ts = acc ++ (ts.map (fun t => '\n' :: t)).flatten := by
  induction ts generalizing acc with
  | nil => simp [appendTexts]
  | cons t rest ih =>
    rw [appendTexts]
    rw [if_neg (by simpa [List.isEmpty_iff] using h)]
    rw [ih (acc ++ '\n' :: t) (by simp)]
    simp

lemma appendTexts_nil_eq_join (t : List Char) (ts : List (List Char)) (h : t ≠ []) :
    appendTexts [] (t :: ts) = joinWithNewlines (t :: ts) := by
  rw [appendTexts]
  rw [if_pos (by simp)]
  rw [List.nil_append]
  rw [appendTexts_of_ne_nil ts t h, joinWithNewlines]

lemma collectRanges_eq_take (rs : List (Option (List Char))) (acc : List Char)
    (h : acc.length < kMaxSelectionLength) :
    collectRanges rs acc =
      (appendTexts acc (rs.filterMap id)).take kMaxSelectionLength := by
  induction rs generalizing acc with
  | nil =>
    rw [collectRanges]
    simp only [List.filterMap_nil, appendTexts]
    exact (List.take_of_length_le (le_of_lt h)).symm
  | cons r rest ih =>
    cases r with
    | none =>
      rw [collectRanges]
      rw [ih acc h]
      rfl
    | some t =>
      rw [collectRanges]
      rw [show (some t :: rest).filterMap id = t :: rest.filterMap id by simp]
      rw [appendTexts]
      set acc2 := if acc.isEmpty = true then acc ++ t else acc ++ '\n' :: t with hacc2
      split_ifs with htr
      · have hne : acc2 ≠ [] := by
          intro hnil
          rw [hnil] at htr
          simp [kMaxSelectionLength] at htr
        rw [appendTexts_of_ne_nil _ _ hne]
        exact (List.take_append_of_le_length htr).symm
      · exact ih _ (not_le.mp htr)

lemma getSelectedText_eq_body (i : SelInput)
    (h1 : i.hasAutomation = true) (h2 : i.hasFocused = true) :
    getSelectedText i =
      (if (match i.selections with
           | some rs => collectRanges rs []
           | none => ([] : List Char)).isEmpty = false then
        (match i.selections with
         | some rs => collectRanges rs []
         | none => ([] : List Char))
       else
        match i.value with
        | some v =>
          if kMaxSelectionLength < v.length then v.take kMaxSelectionLength else v
        | none => []) := by
  unfold getSelectedText
  rw [if_neg (by simp [h1]), if_neg (by simp [h2])]

/-- C9: `TrackingManager::GetSelectedText` always returns at most 4096
characters; the selection ranges are concatenated with newline
separators and truncated at 4096; the value-pattern fallback is
truncated at 4096; and the empty string is returned when no automation
object, focused element, selection or value is available. -/
theorem getSelectedText_spec (i : SelInput) :
    (getSelectedText i).length ≤ kMaxSelectionLength ∧
    (i.hasAutomation = false → getSelectedText i = []) ∧
    (i.hasFocused = false → getSelectedText i = []) ∧
    (∀ rs, i.hasAutomation = true → i.hasFocused = true → i.selections = some rs →
      (∀ t ∈ rs.filterMap id, t ≠ []) → rs.filterMap id ≠ [] →
      getSelectedText i =
        (joinWithNewlines (rs.filterMap id)).take kMaxSelectionLength) ∧
    (∀ v, i.hasAutomation = true → i.hasFocused = true → i.selections = none →
      i.value = some v → getSelectedText i = v.take kMaxSelectionLength) ∧
    (i.hasAutomation = true → i.hasFocused = true → i.selections = none →
      i.value = none → getSelectedText i = []) := by
  refine ⟨?_, ?_, ?_, ?_, ?_, ?_⟩
  · by_cases h1 : i.hasAutomation = false
    · unfold getSelectedText
      rw [if_pos h1]
      simp [kMaxSelectionLength]
    · by_cases h2 : i.hasFocused = false
      · unfold getSelectedText
        rw [if_neg h1, if_pos h2]
        simp [kMaxSelectionLength]
      · rw [getSelectedText_eq_body i (by simpa using h1) (by simpa using h2)]
        split_ifs with h3
        · cases hsel : i.selections with
          | some rs =>
            exact collectRanges_length_le rs [] (by simp [kMaxSelectionLength])
          | none =>
            simp [kMaxSelectionLength]
        · cases hv : i.value with
          | some v =>
            dsimp only
            split_ifs with h4
            · simp [List.length_take]
            · exact not_lt.mp h4
          | none =>
            simp [kMaxSelectionLength]
  · intro h
    unfold getSelectedText
    rw [if_pos h]
  · intro h
    unfold getSelectedText
    by_cases ha : i.hasAutomation = false
    · rw [if_pos ha]
    · rw [if_neg ha, if_pos h]
  · intro rs h1 h2 hsel hne hns
    rw [getSelectedText_eq_body i h1 h2, hsel]
    dsimp only
    have hcr : collectRanges rs [] =
        (joinWithNewlines (rs.filterMap id)).take kMaxSelectionLength := by
      rw [collectRanges_eq_take rs [] (by simp [kMaxSelectionLength])]
      cases hfm : rs.filterMap id with
      | nil => exact absurd hfm hns
      | cons t ts =>
        rw [appendTexts_nil_eq_join t ts (hne t (by rw [hfm]; simp))]
    rw [hcr]
    rw [if_pos]
    simp only [List.isEmpty_eq_false, ne_eq, List.take_eq_nil_iff, not_or]
    constructor
    · simp [kMaxSelectionLength]
    · cases hfm : rs.filterMap id with
      | nil => exact absurd hfm hns
      | cons t ts =>
        rw [joinWithNewlines]
        have ht : t ≠ [] := hne t (by rw [hfm]; simp)
        simp [ht]
  · intro v h1 h2 hsel hv
    rw [getSelectedText_eq_body i h1 h2, hsel, hv]
    dsimp only
    rw [if_neg (by simp)]
    split_ifs with h4
    · rfl
    · exact (List.take_of_length_le (not_lt.mp h4)).symm
  · intro h1 h2 hsel hv
    rw [getSelectedText_eq_body i h1 h2, hsel, hv]
    dsimp only
    rw [if_neg (by simp)]

/-- Witness for C9 at a concrete input. -/
theorem getSelectedText_spec_witness :
    getSelectedText selWitnessInput = ['a', 'b', '\n', 'c'] ∧
    (getSelectedText selWitnessInput).length ≤ kMaxSelectionLength := by
  have h := getSelectedText_spec selWitnessInput
  refine ⟨?_, h.1⟩
  have h4 := h.2.2.2.1 [some ['a', 'b'], none, some ['c']] rfl rfl rfl
    (by decide) (by decide)
  rw [h4]
  decide

/-- C10: `App::ChangeZoom(delta)` clamps the new zoom to [1, 12]; when
the clamped result differs from the current zoom by less than 0.001
(in particular at the 1.0 and 12.0 limits), the call is a complete
no-op — zoom, saved configuration, overlay and center state all stay
unchanged; an effective change stores and saves the clamped zoom and
discards the tracked center (`has_center_` cleared) so the next
resolution snaps directly to its target. -/
theorem changeZoom_spec (s : ZoomState) (delta : ℚ) :
    (|clampQ (s.zoom + delta) kMinZoom kMaxZoom - s.zoom| < 1 / 1000 →
      changeZoom s delta = s) ∧
    (¬(|clampQ (s.zoom + delta) kMinZoom kMaxZoom - s.zoom| < 1 / 1000) →
      (changeZoom s delta).zoom = clampQ (s.zoom + delta) kMinZoom kMaxZoom ∧
      kMinZoom ≤ (changeZoom s delta).zoom ∧
      (changeZoom s delta).zoom ≤ kMaxZoom ∧
      (changeZoom s delta).config_zoom = clampQ (s.zoom + delta) kMinZoom kMaxZoom ∧
      (changeZoom s delta).config_saves = s.config_saves + 1 ∧
      (changeZoom s delta).has_center = false) := by
  constructor
  · intro h
    unfold changeZoom
    rw [if_pos h]
  · intro h
    unfold changeZoom
    rw [if_neg h]
    dsimp only
    have hcm := clampQ_mem (s.zoom + delta) kMinZoom kMaxZoom
      (by norm_num [kMinZoom, kMaxZoom])
    split_ifs with hov <;> exact ⟨rfl, hcm.1, hcm.2, rfl, rfl, rfl⟩

/-- Witness for C10 at concrete inputs: a step up at the 12.0 limit is
a complete no-op; a step up from 2.0 stores 2.25 and clears the
tracked center. -/
theorem changeZoom_spec_witness :
    changeZoom ⟨12, 12, 0, true, true, true, none, 0⟩ (1 / 4) =
      ⟨12, 12, 0, true, true, true, none, 0⟩ ∧
    (changeZoom ⟨2, 2, 0, true, true, true, none, 0⟩ (1 / 4)).zoom = 9 / 4 ∧
    (changeZoom ⟨2, 2, 0, true, true, true, none, 0⟩ (1 / 4)).has_center = false := by
  refine ⟨(changeZoom_spec _ _).1 (by norm_num [clampQ, kMinZoom, kMaxZoom]), ?_, ?_⟩
  · have h := (changeZoom_spec ⟨2, 2, 0, true, true, true, none, 0⟩ (1 / 4)).2
      (by norm_num [clampQ, kMinZoom, kMaxZoom, abs_of_nonneg])
    rw [h.1]
    norm_num [clampQ, kMinZoom, kMaxZoom]
  · exact ((changeZoom_spec ⟨2, 2, 0, true, true, true, none, 0⟩ (1 / 4)).2
      (by norm_num [clampQ, kMinZoom, kMaxZoom, abs_of_nonneg])).2.2.2.2.2
